import Mathlib

/-
Verification development for the Barefoot Blender gas-blending engine
(src/src/utils/calculations.ts). The TypeScript solver core is embedded
shallowly over the rationals: every numeric value is modelled as an element
of the field of rationals, mirroring the ideal arithmetic the source
implements with machine floats. Early returns become nested conditionals,
nullable values become Option, and the discriminated result objects become
structures or inductives. Fixed-iteration binary-search loops are modelled
by an explicit step function iterated by structural recursion on the
iteration count.
-/

set_option maxRecDepth 1000000

inductive PressureUnit where
  | psi
  | bar
deriving DecidableEq

/-- Conversion factor between bar and PSI used by the unit collaborator
(14.5037738 PSI per bar, as pinned by the test suite). -/
def psiPerBar : ℚ := 145037738 / 10000000

/-- Modelled from the spec: the unit-conversion collaborator (utils/units.ts) is
imported by calculations.ts but its source is not part of the solver core tree.
Spec section 6 states that unit translation happens only at the call boundary and
that the engine computes in one canonical unit (PSI); the test suite fixes the
bar-to-PSI factor at 14.5037738. `fromDisplayPressure` converts a displayed
pressure into the canonical PSI value. -/
def fromDisplayPressure (value : ℚ) (unit : PressureUnit) : ℚ :=
  match unit with
  | .psi => value
  | .bar => value * psiPerBar

/-- Modelled from the spec: inverse direction of `fromDisplayPressure`
(canonical PSI back to the display unit), see that definition for provenance. -/
def toDisplayPressure (value : ℚ) (unit : PressureUnit) : ℚ :=
  match unit with
  | .psi => value
  | .bar => value / psiPerBar

def unitLabel (unit : PressureUnit) : String :=
  match unit with
  | .psi => "psi"
  | .bar => "bar"

/-- JavaScript Math.round: round half toward positive infinity. -/
def jsRound (q : ℚ) : ℤ := ⌊q + 1 / 2⌋

structure GasSelection where
  id : String
  name : String
  o2 : ℚ
  he : ℚ
deriving DecidableEq

inductive StepKind where
  | bleed
  | helium
  | oxygen
  | topoff
deriving DecidableEq

structure BlendStep where
  kind : StepKind
  amount : ℚ
  gasName : String
deriving DecidableEq

structure BlendResult where
  success : Bool
  steps : List BlendStep
  warnings : List String
  errors : List String
  bleedPressure : Option ℚ
deriving DecidableEq

structure BlendVolumes where
  helium : ℚ
  oxygen : ℚ
  topoff : ℚ
deriving DecidableEq

structure BlendInputs where
  startPressure : ℚ
  targetPressure : ℚ
  startO2 : ℚ
  startHe : ℚ
  targetO2 : ℚ
  targetHe : ℚ
  topGas : GasSelection
deriving DecidableEq

structure SolveOutcome where
  success : Bool
  requiresBleed : Bool
  message : Option String
  helium : Option ℚ
  oxygen : Option ℚ
  topoff : Option ℚ
deriving DecidableEq

def tolerance : ℚ := 1 / 1000000

def isCloseToZero (value : ℚ) : Bool := |value| ≤ tolerance

def fraction (percent : ℚ) : ℚ := percent / 100

def clampPercent (value : ℚ) : ℚ := min 100 (max 0 value)

structure MixCheck where
  valid : Bool
  message : Option String
deriving DecidableEq

def sanitizeMix (o2 he : ℚ) : MixCheck :=
  if o2 < 0 ∨ he < 0 then
    { valid := false, message := some "Gas fractions cannot be negative." }
  else if o2 > 100 ∨ he > 100 then
    { valid := false, message := some "Gas fractions cannot exceed 100%." }
  else if o2 + he > 100 + 1 / 1000000000 then
    { valid := false, message := some "O2% + He% must be 100% or less." }
  else
    { valid := true, message := none }

def solveFailure (requiresBleed : Bool) (message : String) : SolveOutcome :=
  { success := false, requiresBleed := requiresBleed, message := some message,
    helium := none, oxygen := none, topoff := none }

/-- Tail of solveBlend after the helium/oxygen/topoff candidates are computed:
negativity check, clamping of tiny negatives, and the final pressure check. -/
def solveBlendFinish (startPressure targetPressure helium oxygen topoff : ℚ) : SolveOutcome :=
  if helium < -tolerance ∨ oxygen < -tolerance ∨ topoff < -tolerance then
    solveFailure true "Blend requires removing gas. Bleed-down suggested."
  else
    let helium := max 0 helium
    let oxygen := max 0 oxygen
    let topoff := max 0 topoff
    let finalPressure := startPressure + helium + oxygen + topoff
    if |finalPressure - targetPressure| > 1 / 2 then
      solveFailure true "Unable to match target pressure with current inputs."
    else
      { success := true, requiresBleed := false, message := none,
        helium := some helium, oxygen := some oxygen, topoff := some topoff }

def solveBlend (inputs : BlendInputs) : SolveOutcome :=
  let startPressure := inputs.startPressure
  let targetPressure := inputs.targetPressure
  if targetPressure ≤ 0 then
    solveFailure false "Target pressure must be greater than zero."
  else if startPressure > targetPressure + tolerance then
    solveFailure true "Target pressure is below current pressure. Bleed-down required."
  else
    let startCheck := sanitizeMix inputs.startO2 inputs.startHe
    if ¬ startCheck.valid then
      { success := false, requiresBleed := false, message := startCheck.message,
        helium := none, oxygen := none, topoff := none }
    else
      let targetCheck := sanitizeMix inputs.targetO2 inputs.targetHe
      if ¬ targetCheck.valid then
        { success := false, requiresBleed := false, message := targetCheck.message,
          helium := none, oxygen := none, topoff := none }
      else
        let topCheck := sanitizeMix inputs.topGas.o2 inputs.topGas.he
        if ¬ topCheck.valid then
          { success := false, requiresBleed := false, message := topCheck.message,
            helium := none, oxygen := none, topoff := none }
        else
          let targetN2 := 1 - fraction inputs.targetO2 - fraction inputs.targetHe
          if targetN2 < -tolerance then
            solveFailure false "Target mix is not physically possible."
          else
            let startO2Fraction := fraction inputs.startO2
            let startHeFraction := fraction inputs.startHe
            let startN2Fraction := max 0 (1 - startO2Fraction - startHeFraction)
            let targetO2Fraction := fraction inputs.targetO2
            let targetHeFraction := fraction inputs.targetHe
            let topO2Fraction := fraction inputs.topGas.o2
            let topHeFraction := fraction inputs.topGas.he
            let topN2Fraction := max 0 (1 - topO2Fraction - topHeFraction)
            let dTotal := targetPressure - startPressure
            let dO2 := targetPressure * targetO2Fraction - startPressure * startO2Fraction
            let dHe := targetPressure * targetHeFraction - startPressure * startHeFraction
            let dN2 := targetPressure * targetN2 - startPressure * startN2Fraction
            if dO2 < -tolerance ∨ dHe < -tolerance ∨ dN2 < -tolerance then
              solveFailure true "Start mix exceeds target specification. Bleed-down recommended."
            else if isCloseToZero dTotal then
              solveFailure false "Target pressure matches start pressure."
            else if topN2Fraction > tolerance then
              let topoff := (dTotal - dHe - dO2) / topN2Fraction
              solveBlendFinish startPressure targetPressure
                (dHe - topHeFraction * topoff) (dO2 - topO2Fraction * topoff) topoff
            else if ¬ (|dTotal - (dHe + dO2)| ≤ 1 / 10000) then
              solveFailure true "Selected top-off gas cannot reach target without bleed-down."
            else
              solveBlendFinish startPressure targetPressure dHe dO2 0

structure BleedSearchState where
  low : ℚ
  high : ℚ
  best : SolveOutcome
  bestBleedPressure : Option ℚ
deriving DecidableEq

/-- One iteration of the bleed-down binary search: probe the midpoint with the
composition held fixed; keep the high end on success, raise the low end on failure. -/
def findBleedStep (inputs : BlendInputs) (s : BleedSearchState) : BleedSearchState :=
  let mid := (s.low + s.high) / 2
  let scaledInputs := { inputs with startPressure := mid }
  let attempt := solveBlend scaledInputs
  if attempt.success then
    { low := s.low, high := mid, best := attempt, bestBleedPressure := some mid }
  else
    { low := mid, high := s.high, best := s.best, bestBleedPressure := s.bestBleedPressure }

def findBleedRun (inputs : BlendInputs) : Nat → BleedSearchState → BleedSearchState
  | 0, s => s
  | n + 1, s => findBleedRun inputs n (findBleedStep inputs s)

def bleedInitState (inputs : BlendInputs) : BleedSearchState :=
  { low := 0, high := inputs.startPressure,
    best := { success := false, requiresBleed := true, message := none,
              helium := none, oxygen := none, topoff := none },
    bestBleedPressure := none }

def findBleedSolution (inputs : BlendInputs) : SolveOutcome × Option ℚ :=
  let final := findBleedRun inputs 25 (bleedInitState inputs)
  (final.best, final.bestBleedPressure)

def summarizeStep (acc : BlendVolumes) (step : BlendStep) : BlendVolumes :=
  match step.kind with
  | .helium => { acc with helium := acc.helium + step.amount }
  | .oxygen => { acc with oxygen := acc.oxygen + step.amount }
  | .topoff => { acc with topoff := acc.topoff + step.amount }
  | .bleed => acc

def summarizeBlendVolumes (result : BlendResult) : BlendVolumes :=
  if ¬ result.success then { helium := 0, oxygen := 0, topoff := 0 }
  else result.steps.foldl summarizeStep { helium := 0, oxygen := 0, topoff := 0 }

structure StandardBlendInput where
  startO2 : ℚ
  startHe : ℚ
  startPressure : ℚ
  targetO2 : ℚ
  targetHe : ℚ
  targetPressure : ℚ
  topGasId : String
deriving DecidableEq

structure BlendSettings where
  pressureUnit : PressureUnit
deriving DecidableEq

def standardWarnings (inputs : StandardBlendInput) : List String :=
  (if inputs.targetO2 < 18 then ["Hypoxic mix (<18% O2)."] else []) ++
    (if inputs.targetO2 > 40 then ["High O2 - fire risk (>40% O2)."] else [])

/-- The AddGas steps emitted for a successful solve outcome: only components
strictly above the tolerance are kept, in the order Helium, Oxygen, Top-off. -/
def outcomeSteps (o : SolveOutcome) (topGas : GasSelection) : List BlendStep :=
  (match o.helium with
    | some h => if h > tolerance then [{ kind := .helium, amount := h, gasName := "Helium" }] else []
    | none => []) ++
  (match o.oxygen with
    | some v => if v > tolerance then [{ kind := .oxygen, amount := v, gasName := "Oxygen" }] else []
    | none => []) ++
  (match o.topoff with
    | some t => if t > tolerance then [{ kind := .topoff, amount := t, gasName := topGas.name }] else []
    | none => [])

def standardBlendInputs (settings : BlendSettings) (inputs : StandardBlendInput)
    (topGas : GasSelection) : BlendInputs :=
  { startPressure := fromDisplayPressure inputs.startPressure settings.pressureUnit,
    targetPressure := fromDisplayPressure inputs.targetPressure settings.pressureUnit,
    startO2 := inputs.startO2, startHe := inputs.startHe,
    targetO2 := inputs.targetO2, targetHe := inputs.targetHe, topGas := topGas }

def calculateStandardBlend (settings : BlendSettings) (inputs : StandardBlendInput)
    (topGas : GasSelection) : BlendResult :=
  let startPressurePsi := fromDisplayPressure inputs.startPressure settings.pressureUnit
  let blendInputs := standardBlendInputs settings inputs topGas
  let primary := solveBlend blendInputs
  let warnings := standardWarnings inputs
  if primary.success then
    { success := true, steps := outcomeSteps primary topGas, warnings := warnings,
      errors := [], bleedPressure := none }
  else if ¬ primary.requiresBleed then
    { success := false, steps := [], warnings := warnings,
      errors := [primary.message.getD "Calculation failed."], bleedPressure := none }
  else if startPressurePsi ≤ tolerance then
    { success := false, steps := [], warnings := warnings,
      errors := [primary.message.getD "Blend is not possible with current inputs."],
      bleedPressure := none }
  else
    let bleed := findBleedSolution blendInputs
    match bleed.2 with
    | none =>
      { success := false, steps := [], warnings := warnings,
        errors := [primary.message.getD "Unable to compute bleed-down solution."],
        bleedPressure := none }
    | some bleedPressure =>
      if ¬ bleed.1.success then
        { success := false, steps := [], warnings := warnings,
          errors := [primary.message.getD "Unable to compute bleed-down solution."],
          bleedPressure := none }
      else
        let bleedAmount := startPressurePsi - bleedPressure
        { success := true,
          steps := { kind := .bleed, amount := bleedAmount, gasName := "Bleed" } ::
            outcomeSteps bleed.1 topGas,
          warnings := warnings, errors := [], bleedPressure := some bleedPressure }

def airGas : GasSelection := { id := "air", name := "Air", o2 := 21, he := 0 }

def oxygenGas : GasSelection := { id := "oxygen", name := "Oxygen", o2 := 100, he := 0 }

def heliumGas : GasSelection := { id := "helium", name := "Helium", o2 := 0, he := 100 }

def hasBleedStep (result : BlendResult) : Bool :=
  result.steps.any fun step => step.kind = .bleed

structure StartPressureSolveResult where
  success : Bool
  startPressurePsi : ℚ
  blend : Option BlendResult
  warnings : List String
  errors : List String
deriving DecidableEq

structure ReverseSearchState where
  low : ℚ
  high : ℚ
  best : Option (ℚ × BlendResult)
deriving DecidableEq

/-- The evaluate closure of solveRequiredStartPressure: re-run the standard blend
with the hypothetical start pressure converted back to the display unit. -/
def requiredStartEvaluate (settings : BlendSettings) (inputs : StandardBlendInput)
    (topGas : GasSelection) (startPsi : ℚ) : BlendResult :=
  calculateStandardBlend settings
    { inputs with startPressure := toDisplayPressure startPsi settings.pressureUnit } topGas

/-- One iteration of the required-start-pressure binary search. -/
def requiredStartStep (settings : BlendSettings) (inputs : StandardBlendInput)
    (topGas : GasSelection) (s : ReverseSearchState) : ReverseSearchState :=
  let mid := (s.low + s.high) / 2
  let attempt := requiredStartEvaluate settings inputs topGas mid
  if ¬ attempt.success ∨ hasBleedStep attempt then
    { s with low := mid }
  else if (summarizeBlendVolumes attempt).helium ≤ tolerance then
    { low := s.low, high := mid, best := some (mid, attempt) }
  else
    { s with low := mid }

def requiredStartRun (settings : BlendSettings) (inputs : StandardBlendInput)
    (topGas : GasSelection) : Nat → ReverseSearchState → ReverseSearchState
  | 0, s => s
  | n + 1, s => requiredStartRun settings inputs topGas n (requiredStartStep settings inputs topGas s)

def solveRequiredStartPressure (settings : BlendSettings) (inputs : StandardBlendInput)
    (topGas : GasSelection) : StartPressureSolveResult :=
  let targetPressurePsi := fromDisplayPressure inputs.targetPressure settings.pressureUnit
  if targetPressurePsi ≤ tolerance then
    { success := false, startPressurePsi := 0, blend := none, warnings := [],
      errors := ["Target pressure must be greater than zero."] }
  else
    let upper := requiredStartEvaluate settings inputs topGas targetPressurePsi
    let upperVolumes := summarizeBlendVolumes upper
    if ¬ upper.success ∨ hasBleedStep upper ∨ upperVolumes.helium > tolerance then
      { success := false, startPressurePsi := 0, blend := none, warnings := [],
        errors := ["Target cannot be met without adding helium at full cylinder pressure."] }
    else
      let final := requiredStartRun settings inputs topGas 25
        { low := 0, high := targetPressurePsi, best := some (targetPressurePsi, upper) }
      match final.best with
      | none =>
        { success := false, startPressurePsi := 0, blend := none, warnings := [],
          errors := ["Unable to determine required start pressure without helium addition."] }
      | some (startPsi, result) =>
        { success := true, startPressurePsi := startPsi, blend := some result,
          warnings := result.warnings, errors := [] }

structure NoHeliumTargetResult where
  success : Bool
  targetHe : ℚ
  blend : Option BlendResult
  warnings : List String
  errors : List String
deriving DecidableEq

/-- One iteration of the max-target-helium binary search of solveMaxTargetWithoutHelium. -/
def maxTargetHeStep (settings : BlendSettings) (inputs : StandardBlendInput)
    (topGas : GasSelection) (s : ReverseSearchState) : ReverseSearchState :=
  let mid := (s.low + s.high) / 2
  let attempt := calculateStandardBlend settings { inputs with targetHe := mid } topGas
  if ¬ attempt.success ∨ hasBleedStep attempt then
    { s with high := mid }
  else if (summarizeBlendVolumes attempt).helium ≤ tolerance then
    { low := mid, high := s.high, best := some (mid, attempt) }
  else
    { s with high := mid }

def maxTargetHeRun (settings : BlendSettings) (inputs : StandardBlendInput)
    (topGas : GasSelection) : Nat → ReverseSearchState → ReverseSearchState
  | 0, s => s
  | n + 1, s => maxTargetHeRun settings inputs topGas n (maxTargetHeStep settings inputs topGas s)

def solveMaxTargetWithoutHelium (settings : BlendSettings) (inputs : StandardBlendInput)
    (topGas : GasSelection) : NoHeliumTargetResult :=
  let maxHe := max 0 (min (100 - inputs.targetO2) 100)
  if maxHe ≤ tolerance then
    { success := true, targetHe := 0,
      blend := some (calculateStandardBlend settings { inputs with targetHe := 0 } topGas),
      warnings := [], errors := [] }
  else
    let final := maxTargetHeRun settings inputs topGas 25 { low := 0, high := maxHe, best := none }
    match final.best with
    | none =>
      { success := false, targetHe := 0, blend := none, warnings := [],
        errors := ["Unable to achieve a target mix without helium addition."] }
    | some (he, result) =>
      { success := true, targetHe := he, blend := some result,
        warnings := result.warnings, errors := [] }

inductive TwoGasBlendResult where
  | ok (gas1Amount gas2Amount finalO2 finalHe : ℚ) (warning : Option String)
  | err (error : String)
deriving DecidableEq

/-- Tail of solveTwoGasBlend once candidate pressures are known: negativity check,
clamping, total-pressure check and the achieved-mix verification. -/
def solveTwoGasFinish (targetPressurePsi targetHe gas1O2Fraction gas1HeFraction
    gas2O2Fraction gas2HeFraction gas1Pressure gas2Pressure : ℚ)
    (usedTrimixSolver : Bool) : TwoGasBlendResult :=
  if gas1Pressure < -tolerance ∨ gas2Pressure < -tolerance then
    .err "Blend requires negative source gas volume."
  else
    let sanitizedGas1 := max 0 gas1Pressure
    let sanitizedGas2 := max 0 gas2Pressure
    let totalPressure := sanitizedGas1 + sanitizedGas2
    if totalPressure ≤ tolerance then
      .err "Unable to compute source gas contributions."
    else if |totalPressure - targetPressurePsi| > max 5 (targetPressurePsi * (1 / 100)) then
      .err "Selected sources cannot meet the target composition at this pressure."
    else
      let resultO2 := (sanitizedGas1 * gas1O2Fraction + sanitizedGas2 * gas2O2Fraction) /
        totalPressure * 100
      let resultHe := (sanitizedGas1 * gas1HeFraction + sanitizedGas2 * gas2HeFraction) /
        totalPressure * 100
      let warning :=
        if usedTrimixSolver ∧ |resultHe - targetHe| > 1 / 2 then
          some "Helium target may require additional trimming with oxygen or helium."
        else none
      .ok sanitizedGas1 sanitizedGas2 resultO2 resultHe warning

def solveTwoGasBlend (targetPressurePsi targetO2 targetHe : ℚ)
    (gas1 gas2 : GasSelection) : TwoGasBlendResult :=
  let targetO2Fraction := fraction targetO2
  let targetHeFraction := fraction targetHe
  if targetO2Fraction + targetHeFraction > 1 + tolerance then
    .err "O2 + He must be 100% or less."
  else
    let gas1O2Fraction := fraction gas1.o2
    let gas1HeFraction := fraction gas1.he
    let gas2O2Fraction := fraction gas2.o2
    let gas2HeFraction := fraction gas2.he
    let demandO2 := targetPressurePsi * targetO2Fraction
    let demandHe := targetPressurePsi * targetHeFraction
    let determinant := gas1O2Fraction * gas2HeFraction - gas2O2Fraction * gas1HeFraction
    if |determinant| > tolerance ∧
        (targetHeFraction > tolerance ∨ gas1HeFraction > tolerance ∨ gas2HeFraction > tolerance) then
      let gas1Pressure := (demandO2 * gas2HeFraction - demandHe * gas2O2Fraction) / determinant
      let gas2Pressure := (gas1O2Fraction * demandHe - gas1HeFraction * demandO2) / determinant
      solveTwoGasFinish targetPressurePsi targetHe gas1O2Fraction gas1HeFraction
        gas2O2Fraction gas2HeFraction gas1Pressure gas2Pressure true
    else if targetO2 < min gas1.o2 gas2.o2 - 1 / 1000000 ∨
        targetO2 > max gas1.o2 gas2.o2 + 1 / 1000000 then
      .err "Target O2% must lie between Gas 1 and Gas 2 O2%."
    else
      let denominator := gas1O2Fraction - gas2O2Fraction
      if |denominator| < tolerance then
        .err "Source gases must have different O2 percentages."
      else
        let gas1Pressure := targetPressurePsi * (targetO2Fraction - gas2O2Fraction) / denominator
        let gas2Pressure := targetPressurePsi - gas1Pressure
        solveTwoGasFinish targetPressurePsi targetHe gas1O2Fraction gas1HeFraction
          gas2O2Fraction gas2HeFraction gas1Pressure gas2Pressure false

structure CostSettings where
  pricePerCuFtO2 : ℚ
  pricePerCuFtHe : ℚ
  tankSizeCuFt : ℚ
  tankRatedPressure : ℚ
deriving DecidableEq

/-- Cost priority rank for a gas (lower = cheaper); fallback when the helium
price is not configured. -/
def getGasCostRank (gas : GasSelection) : ℚ :=
  if gas.id = "air" then 1
  else if gas.he = 0 then 2
  else if gas.he < 20 then 3
  else if gas.he < 100 then 4
  else 5

def estimateGasPressureCost (gas : GasSelection) (pressurePsi : ℚ)
    (costSettings : CostSettings) : ℚ :=
  if costSettings.tankRatedPressure ≤ 0 ∨ pressurePsi ≤ 0 then 0
  else
    let cuFt := pressurePsi / costSettings.tankRatedPressure * costSettings.tankSizeCuFt
    let o2Fraction := fraction gas.o2
    let heFraction := fraction gas.he
    if costSettings.pricePerCuFtHe > 0 then
      cuFt * o2Fraction * costSettings.pricePerCuFtO2 +
        cuFt * heFraction * costSettings.pricePerCuFtHe
    else
      cuFt * getGasCostRank gas * (1 / 10)

structure GasStep where
  gas : GasSelection
  amount : ℚ
deriving DecidableEq

structure FillEntry where
  gas : String
  amount : ℚ
deriving DecidableEq

structure CostItem where
  gas : String
  amount : ℚ
  cost : ℚ
deriving DecidableEq

structure BlendAlternative where
  steps : List GasStep
  finalO2 : ℚ
  finalHe : ℚ
  deviationO2 : ℚ
  deviationHe : ℚ
  estimatedCost : ℚ
  costBreakdown : List CostItem
  fillOrder : List FillEntry
deriving DecidableEq

structure TwoGasSolution where
  gas1Amount : ℚ
  gas2Amount : ℚ
  finalO2 : ℚ
  finalHe : ℚ
deriving DecidableEq

/-- Solve a blend using exactly two gases via the 2x2 O2/He linear system, with a
nitrox fallback for the degenerate determinant, and the over-determined
total-pressure check with tolerance max(1, 0.5% of the added pressure). -/
def tryTwoGasSolution (addedPressure neededO2Percent neededHePercent : ℚ)
    (gas1 gas2 : GasSelection) : Option TwoGasSolution :=
  let targetO2 := fraction neededO2Percent
  let targetHe := fraction neededHePercent
  if targetO2 + targetHe > 1 + tolerance then none
  else if targetO2 < -tolerance ∨ targetHe < -tolerance then none
  else
    let o1 := fraction gas1.o2
    let h1 := fraction gas1.he
    let o2 := fraction gas2.o2
    let h2 := fraction gas2.he
    let det := o1 * h2 - o2 * h1
    if |det| < tolerance then
      if targetHe < tolerance ∧ h1 < tolerance ∧ h2 < tolerance then
        let denom := o1 - o2
        if |denom| < tolerance then none
        else
          let g1 := addedPressure * (targetO2 - o2) / denom
          let g2 := addedPressure - g1
          if g1 < -tolerance ∨ g2 < -tolerance then none
          else
            let sg1 := max 0 g1
            let sg2 := max 0 g2
            some { gas1Amount := sg1, gas2Amount := sg2,
                   finalO2 := (sg1 * o1 + sg2 * o2) / addedPressure * 100, finalHe := 0 }
      else none
    else
      let rhsO2 := addedPressure * targetO2
      let rhsHe := addedPressure * targetHe
      let g1 := (rhsO2 * h2 - rhsHe * o2) / det
      let g2 := (o1 * rhsHe - h1 * rhsO2) / det
      if g1 < -tolerance ∨ g2 < -tolerance then none
      else
        let sg1 := max 0 g1
        let sg2 := max 0 g2
        let totalPressure := sg1 + sg2
        if |totalPressure - addedPressure| > max 1 (addedPressure * (5 / 1000)) then none
        else
          let resultO2 := if totalPressure > 0 then (sg1 * o1 + sg2 * o2) / totalPressure * 100 else 0
          let resultHe := if totalPressure > 0 then (sg1 * h1 + sg2 * h2) / totalPressure * 100 else 0
          some { gas1Amount := sg1, gas2Amount := sg2, finalO2 := resultO2, finalHe := resultHe }

structure SingleGasSolution where
  amount : ℚ
  finalO2 : ℚ
  finalHe : ℚ
deriving DecidableEq

/-- Single-source solution: only matches when the gas composition is within 0.5%
of the needed composition on both O2 and He. -/
def trySingleGasSolution (addedPressure neededO2Percent neededHePercent : ℚ)
    (gas : GasSelection) : Option SingleGasSolution :=
  if |gas.o2 - neededO2Percent| < 1 / 2 ∧ |gas.he - neededHePercent| < 1 / 2 then
    some { amount := addedPressure, finalO2 := gas.o2, finalHe := gas.he }
  else none

/-- The fill-order comparator of getRecommendedFillOrder (negative = a first):
pure He first, then pure O2, then descending He content, then descending O2. -/
def fillOrderCmp (a b : GasStep) : ℚ :=
  if a.gas.he = 100 ∧ b.gas.he ≠ 100 then -1
  else if b.gas.he = 100 ∧ a.gas.he ≠ 100 then 1
  else if a.gas.o2 = 100 ∧ b.gas.o2 ≠ 100 then -1
  else if b.gas.o2 = 100 ∧ a.gas.o2 ≠ 100 then 1
  else if a.gas.he ≠ b.gas.he then b.gas.he - a.gas.he
  else if a.gas.o2 ≠ b.gas.o2 then b.gas.o2 - a.gas.o2
  else 0

instance fillOrderLeDec : DecidableRel (fun a b : GasStep => fillOrderCmp a b ≤ 0) :=
  fun a b => inferInstanceAs (Decidable (fillOrderCmp a b ≤ 0))

/-- Recommended fill order: drop zero-amount steps, then stable-sort by the
comparator (the ECMAScript stable sort is modelled as an insertion sort). -/
def getRecommendedFillOrder (steps : List GasStep) : List FillEntry :=
  let sorted := (steps.filter fun s => s.amount > tolerance).insertionSort
    fun a b => fillOrderCmp a b ≤ 0
  sorted.map fun s => { gas := s.gas.name, amount := s.amount }

def threeGasDetA (o1 h1 o2 h2 o3 h3 : ℚ) : ℚ :=
  1 * (o2 * h3 - o3 * h2) - 1 * (o1 * h3 - o3 * h1) + 1 * (o1 * h2 - o2 * h1)

def threeGasDetA1 (rhs1 rhs2 rhs3 o1 h1 o2 h2 o3 h3 : ℚ) : ℚ :=
  rhs1 * (o2 * h3 - o3 * h2) - 1 * (rhs2 * h3 - o3 * rhs3) + 1 * (rhs2 * h2 - o2 * rhs3)

def threeGasDetA2 (rhs1 rhs2 rhs3 o1 h1 o2 h2 o3 h3 : ℚ) : ℚ :=
  1 * (rhs2 * h3 - o3 * rhs3) - rhs1 * (o1 * h3 - o3 * h1) + 1 * (o1 * rhs3 - rhs2 * h1)

def threeGasDetA3 (rhs1 rhs2 rhs3 o1 h1 o2 h2 o3 h3 : ℚ) : ℚ :=
  1 * (o2 * rhs3 - rhs2 * h2) - 1 * (o1 * rhs3 - rhs2 * h1) + rhs1 * (o1 * h2 - o2 * h1)

structure ThreeGasSolution where
  gas1Amount : ℚ
  gas2Amount : ℚ
  gas3Amount : ℚ
  finalO2 : ℚ
  finalHe : ℚ
deriving DecidableEq

/-- The Cramer-rule solution of the 3x3 system used by tryThreeGasSolution:
component i is the determinant with column i replaced by the right-hand side
(P, P*targetO2Fraction, P*targetHeFraction), divided by the system determinant. -/
def threeGasCramer (addedPressure targetO2 targetHe o1 h1 o2 h2 o3 h3 : ℚ) : ℚ × ℚ × ℚ :=
  let detA := threeGasDetA o1 h1 o2 h2 o3 h3
  let rhs1 := addedPressure
  let rhs2 := addedPressure * targetO2
  let rhs3 := addedPressure * targetHe
  (threeGasDetA1 rhs1 rhs2 rhs3 o1 h1 o2 h2 o3 h3 / detA,
    threeGasDetA2 rhs1 rhs2 rhs3 o1 h1 o2 h2 o3 h3 / detA,
    threeGasDetA3 rhs1 rhs2 rhs3 o1 h1 o2 h2 o3 h3 / detA)

/-- Solve a blend using exactly three gases by the Cramer rule over the system
g1+g2+g3 = P, sum of gi*O2i = P*targetO2, sum of gi*Hei = P*targetHe. -/
def tryThreeGasSolution (addedPressure neededO2Percent neededHePercent : ℚ)
    (gas1 gas2 gas3 : GasSelection) : Option ThreeGasSolution :=
  let targetO2 := fraction neededO2Percent
  let targetHe := fraction neededHePercent
  if targetO2 + targetHe > 1 + tolerance then none
  else if targetO2 < -tolerance ∨ targetHe < -tolerance then none
  else
    let o1 := fraction gas1.o2
    let h1 := fraction gas1.he
    let o2 := fraction gas2.o2
    let h2 := fraction gas2.he
    let o3 := fraction gas3.o2
    let h3 := fraction gas3.he
    let detA := threeGasDetA o1 h1 o2 h2 o3 h3
    if |detA| < tolerance then none
    else
      let g1 := (threeGasCramer addedPressure targetO2 targetHe o1 h1 o2 h2 o3 h3).1
      let g2 := (threeGasCramer addedPressure targetO2 targetHe o1 h1 o2 h2 o3 h3).2.1
      let g3 := (threeGasCramer addedPressure targetO2 targetHe o1 h1 o2 h2 o3 h3).2.2
      if g1 < -tolerance ∨ g2 < -tolerance ∨ g3 < -tolerance then none
      else
        let sg1 := max 0 g1
        let sg2 := max 0 g2
        let sg3 := max 0 g3
        let totalPressure := sg1 + sg2 + sg3
        if |totalPressure - addedPressure| > max 1 (addedPressure * (1 / 100)) then none
        else
          let resultO2 :=
            if totalPressure > 0 then (sg1 * o1 + sg2 * o2 + sg3 * o3) / totalPressure * 100 else 0
          let resultHe :=
            if totalPressure > 0 then (sg1 * h1 + sg2 * h2 + sg3 * h3) / totalPressure * 100 else 0
          some { gas1Amount := sg1, gas2Amount := sg2, gas3Amount := sg3,
                 finalO2 := resultO2, finalHe := resultHe }

/-- Unordered pairs of list elements in source iteration order (i < j). -/
def listPairs {α : Type} : List α → List (α × α)
  | [] => []
  | x :: xs => (xs.map fun y => (x, y)) ++ listPairs xs

/-- Unordered triples of list elements in source iteration order (i < j < k). -/
def listTriples {α : Type} : List α → List (α × α × α)
  | [] => []
  | x :: xs => ((listPairs xs).map fun p => (x, p.1, p.2)) ++ listTriples xs

/-- Alternative built from a single-gas solution, annotated with the actual
final tank mix and the estimated cost. -/
def singleGasAlternative (startPressurePsi startO2 startHe targetO2 targetHe : ℚ)
    (costSettings : CostSettings) (gas : GasSelection)
    (solution : SingleGasSolution) : BlendAlternative :=
  let totalPressure := startPressurePsi + solution.amount
  let actualFinalO2 :=
    (startPressurePsi * fraction startO2 + solution.amount * fraction gas.o2) / totalPressure * 100
  let actualFinalHe :=
    (startPressurePsi * fraction startHe + solution.amount * fraction gas.he) / totalPressure * 100
  let steps := [{ gas := gas, amount := solution.amount : GasStep }]
  let cost := estimateGasPressureCost gas solution.amount costSettings
  { steps := steps, finalO2 := actualFinalO2, finalHe := actualFinalHe,
    deviationO2 := actualFinalO2 - targetO2, deviationHe := actualFinalHe - targetHe,
    estimatedCost := cost,
    costBreakdown := [{ gas := gas.name, amount := solution.amount, cost := cost }],
    fillOrder := getRecommendedFillOrder steps }

/-- Alternative built from a two-gas solution. -/
def twoGasAlternative (startPressurePsi startO2 startHe targetO2 targetHe : ℚ)
    (costSettings : CostSettings) (gas1 gas2 : GasSelection)
    (solution : TwoGasSolution) : BlendAlternative :=
  let steps :=
    (if solution.gas1Amount > tolerance then [{ gas := gas1, amount := solution.gas1Amount : GasStep }] else []) ++
      (if solution.gas2Amount > tolerance then [{ gas := gas2, amount := solution.gas2Amount : GasStep }] else [])
  let totalAdd := solution.gas1Amount + solution.gas2Amount
  let totalPressure := startPressurePsi + totalAdd
  let actualFinalO2 := (startPressurePsi * fraction startO2 +
    solution.gas1Amount * fraction gas1.o2 + solution.gas2Amount * fraction gas2.o2) /
    totalPressure * 100
  let actualFinalHe := (startPressurePsi * fraction startHe +
    solution.gas1Amount * fraction gas1.he + solution.gas2Amount * fraction gas2.he) /
    totalPressure * 100
  let cost1 := estimateGasPressureCost gas1 solution.gas1Amount costSettings
  let cost2 := estimateGasPressureCost gas2 solution.gas2Amount costSettings
  { steps := steps, finalO2 := actualFinalO2, finalHe := actualFinalHe,
    deviationO2 := actualFinalO2 - targetO2, deviationHe := actualFinalHe - targetHe,
    estimatedCost := cost1 + cost2,
    costBreakdown :=
      (if solution.gas1Amount > tolerance then [{ gas := gas1.name, amount := solution.gas1Amount, cost := cost1 : CostItem }] else []) ++
        (if solution.gas2Amount > tolerance then [{ gas := gas2.name, amount := solution.gas2Amount, cost := cost2 : CostItem }] else []),
    fillOrder := getRecommendedFillOrder steps }

/-- Alternative built from a three-gas solution. -/
def threeGasAlternative (startPressurePsi startO2 startHe targetO2 targetHe : ℚ)
    (costSettings : CostSettings) (gas1 gas2 gas3 : GasSelection)
    (solution : ThreeGasSolution) : BlendAlternative :=
  let steps :=
    (if solution.gas1Amount > tolerance then [{ gas := gas1, amount := solution.gas1Amount : GasStep }] else []) ++
      (if solution.gas2Amount > tolerance then [{ gas := gas2, amount := solution.gas2Amount : GasStep }] else []) ++
        (if solution.gas3Amount > tolerance then [{ gas := gas3, amount := solution.gas3Amount : GasStep }] else [])
  let totalAdd := solution.gas1Amount + solution.gas2Amount + solution.gas3Amount
  let totalPressure := startPressurePsi + totalAdd
  let actualFinalO2 := (startPressurePsi * fraction startO2 +
    solution.gas1Amount * fraction gas1.o2 + solution.gas2Amount * fraction gas2.o2 +
    solution.gas3Amount * fraction gas3.o2) / totalPressure * 100
  let actualFinalHe := (startPressurePsi * fraction startHe +
    solution.gas1Amount * fraction gas1.he + solution.gas2Amount * fraction gas2.he +
    solution.gas3Amount * fraction gas3.he) / totalPressure * 100
  let cost1 := estimateGasPressureCost gas1 solution.gas1Amount costSettings
  let cost2 := estimateGasPressureCost gas2 solution.gas2Amount costSettings
  let cost3 := estimateGasPressureCost gas3 solution.gas3Amount costSettings
  { steps := steps, finalO2 := actualFinalO2, finalHe := actualFinalHe,
    deviationO2 := actualFinalO2 - targetO2, deviationHe := actualFinalHe - targetHe,
    estimatedCost := cost1 + cost2 + cost3,
    costBreakdown :=
      (if solution.gas1Amount > tolerance then [{ gas := gas1.name, amount := solution.gas1Amount, cost := cost1 : CostItem }] else []) ++
        (if solution.gas2Amount > tolerance then [{ gas := gas2.name, amount := solution.gas2Amount, cost := cost2 : CostItem }] else []) ++
          (if solution.gas3Amount > tolerance then [{ gas := gas3.name, amount := solution.gas3Amount, cost := cost3 : CostItem }] else []),
    fillOrder := getRecommendedFillOrder steps }

instance stringLeDec : DecidableRel (fun a b : String => ¬ b < a) :=
  fun a b => inferInstanceAs (Decidable (¬ b < a))

/-- Deduplication key: sorted gasName/rounded-amount pairs of the fill order. -/
def altKey (alt : BlendAlternative) : String :=
  String.intercalate "|"
    ((alt.fillOrder.map fun s => s.gas ++ ":" ++ toString (jsRound s.amount)).insertionSort
      fun a b => ¬ b < a)

def dedupAlternativesGo : List String → List BlendAlternative → List BlendAlternative
  | _, [] => []
  | seen, alt :: rest =>
    let key := altKey alt
    if key ∈ seen then dedupAlternativesGo seen rest
    else alt :: dedupAlternativesGo (key :: seen) rest

def dedupAlternatives (alts : List BlendAlternative) : List BlendAlternative :=
  dedupAlternativesGo [] alts

instance costLeDec :
    DecidableRel (fun a b : BlendAlternative => a.estimatedCost ≤ b.estimatedCost) :=
  fun a b => inferInstanceAs (Decidable (a.estimatedCost ≤ b.estimatedCost))

/-- Generate all valid blend alternatives: try all 1-, 2- and 3-gas combinations,
deduplicate, sort ascending by estimated cost and keep the best maxAlternatives. -/
def generateBlendAlternatives (targetPressurePsi targetO2 targetHe startPressurePsi
    startO2 startHe : ℚ) (availableGases : List GasSelection)
    (costSettings : CostSettings) (maxAlternatives : Nat) : List BlendAlternative :=
  let addedPressure := targetPressurePsi - startPressurePsi
  if addedPressure ≤ tolerance then []
  else
    let neededO2Psi := targetPressurePsi * fraction targetO2 - startPressurePsi * fraction startO2
    let neededHePsi := targetPressurePsi * fraction targetHe - startPressurePsi * fraction startHe
    let neededO2Percent := neededO2Psi / addedPressure * 100
    let neededHePercent := neededHePsi / addedPressure * 100
    if neededO2Percent < -(1 / 2) ∨ neededHePercent < -(1 / 2) then []
    else if neededO2Percent + neededHePercent > 100 + 1 / 2 then []
    else
      -- availableGases.filter(g => g): objects are always truthy, identity filter
      let enabledGases := availableGases
      let singles := enabledGases.filterMap fun gas =>
        (trySingleGasSolution addedPressure neededO2Percent neededHePercent gas).map
          (singleGasAlternative startPressurePsi startO2 startHe targetO2 targetHe costSettings gas)
      let pairs := (listPairs enabledGases).filterMap fun p =>
        (tryTwoGasSolution addedPressure neededO2Percent neededHePercent p.1 p.2).bind
          fun solution =>
            if solution.gas1Amount > -tolerance ∧ solution.gas2Amount > -tolerance then
              some (twoGasAlternative startPressurePsi startO2 startHe targetO2 targetHe
                costSettings p.1 p.2 solution)
            else none
      let triples := (listTriples enabledGases).filterMap fun t =>
        (tryThreeGasSolution addedPressure neededO2Percent neededHePercent t.1 t.2.1 t.2.2).bind
          fun solution =>
            if solution.gas1Amount > -tolerance ∧ solution.gas2Amount > -tolerance ∧
                solution.gas3Amount > -tolerance then
              some (threeGasAlternative startPressurePsi startO2 startHe targetO2 targetHe
                costSettings t.1 t.2.1 t.2.2 solution)
            else none
      let alternatives := singles ++ pairs ++ triples
      let uniqueAlternatives := dedupAlternatives alternatives
      (uniqueAlternatives.insertionSort fun a b => a.estimatedCost ≤ b.estimatedCost).take
        maxAlternatives

structure NGasBlendResult where
  success : Bool
  alternatives : List BlendAlternative
  selectedIndex : ℤ
  error : Option String
  warnings : List String
deriving DecidableEq

structure NGasSearchState where
  low : ℚ
  high : ℚ
  bestStartPressure : ℚ
  bestAlternatives : List BlendAlternative
deriving DecidableEq

/-- One iteration of the orchestrator bleed-down binary search over the reduced
start pressure: keep the midpoint (and its alternatives) on success, bleed more
on failure. -/
def ngasSearchStep (targetPressurePsi targetO2 targetHe startO2 startHe : ℚ)
    (availableGases : List GasSelection) (costSettings : CostSettings)
    (s : NGasSearchState) : NGasSearchState :=
  let mid := (s.low + s.high) / 2
  let attemptAlts := generateBlendAlternatives targetPressurePsi targetO2 targetHe mid
    startO2 startHe availableGases costSettings 5
  if attemptAlts.length > 0 then
    { low := mid, high := s.high, bestStartPressure := mid, bestAlternatives := attemptAlts }
  else
    { low := s.low, high := mid, bestStartPressure := s.bestStartPressure,
      bestAlternatives := s.bestAlternatives }

def ngasSearchRun (targetPressurePsi targetO2 targetHe startO2 startHe : ℚ)
    (availableGases : List GasSelection) (costSettings : CostSettings) :
    Nat → NGasSearchState → NGasSearchState
  | 0, s => s
  | n + 1, s => ngasSearchRun targetPressurePsi targetO2 targetHe startO2 startHe
      availableGases costSettings n
      (ngasSearchStep targetPressurePsi targetO2 targetHe startO2 startHe
        availableGases costSettings s)

/-- Prepend the synthetic bleed entries to one alternative found after bleed-down.
The fill order receives a Bleed Tank entry whose amount is the negated bleed. -/
def addBleedToAlternative (settings : BlendSettings) (startPressurePsi bestStartPressure : ℚ)
    (alt : BlendAlternative) : BlendAlternative :=
  let bleedAmount := startPressurePsi - bestStartPressure
  { alt with
    fillOrder := { gas := "Bleed Tank", amount := -bleedAmount } :: alt.fillOrder,
    costBreakdown :=
      { gas := "Bleed to " ++
          toString (jsRound (toDisplayPressure bestStartPressure settings.pressureUnit)) ++
          " " ++ unitLabel settings.pressureUnit,
        amount := bleedAmount, cost := 0 } :: alt.costBreakdown }

def ngasWarnings (targetO2 : ℚ) : List String :=
  (if targetO2 < 18 then ["Hypoxic mix (<18% O2)."] else []) ++
    (if targetO2 > 40 then ["High O2 - fire risk (>40% O2)."] else [])

/-- Main N-gas blend orchestrator: validation, warnings, the alternative
generator, its bleed-down fallback search, and selection by index. -/
def solveNGasBlend (settings : BlendSettings) (targetPressure targetO2 targetHe
    startPressure startO2 startHe : ℚ) (availableGases : List GasSelection)
    (costSettings : CostSettings) (selectedIndex : ℤ) : NGasBlendResult :=
  let targetPressurePsi := fromDisplayPressure targetPressure settings.pressureUnit
  let startPressurePsi := fromDisplayPressure startPressure settings.pressureUnit
  let warnings := ngasWarnings targetO2
  if targetPressurePsi ≤ tolerance then
    { success := false, alternatives := [], selectedIndex := 0,
      error := some "Target pressure must be greater than zero.", warnings := warnings }
  else if targetO2 + targetHe > 100 + tolerance then
    { success := false, alternatives := [], selectedIndex := 0,
      error := some "O2 + He must be 100% or less.", warnings := warnings }
  else if availableGases.length = 0 then
    { success := false, alternatives := [], selectedIndex := 0,
      error := some "No gas sources available.", warnings := warnings }
  else
    let alternatives := generateBlendAlternatives targetPressurePsi targetO2 targetHe
      startPressurePsi startO2 startHe availableGases costSettings 5
    let searched : Option (List BlendAlternative × List String) :=
      if alternatives.length = 0 ∧ startPressurePsi > tolerance then
        let final := ngasSearchRun targetPressurePsi targetO2 targetHe startO2 startHe
          availableGases costSettings 20
          { low := 0, high := startPressurePsi, bestStartPressure := 0, bestAlternatives := [] }
        if final.bestAlternatives.length > 0 then
          some (final.bestAlternatives.map
              (addBleedToAlternative settings startPressurePsi final.bestStartPressure),
            warnings ++ ["Bleed-down required to achieve target mix."])
        else none
      else none
    let alternatives2 := (searched.map Prod.fst).getD alternatives
    let warnings2 := (searched.map Prod.snd).getD warnings
    if alternatives2.length = 0 then
      { success := false, alternatives := [], selectedIndex := 0,
        error := some "No valid blend found with available gases. Try adding more gas sources or adjusting target.",
        warnings := warnings2 }
    else
      let validIndex := min selectedIndex ((alternatives2.length : ℤ) - 1)
      { success := true, alternatives := alternatives2, selectedIndex := validIndex,
        error := none, warnings := warnings2 }

/-
Observables used to state the claims: the AddGas portion of a plan, the summed
amounts, and the oxygen/helium content contributed by each emitted step (a
Helium step is pure helium, an Oxygen step pure oxygen, a top-off step carries
the top gas composition).
-/

def addGasSteps (r : BlendResult) : List BlendStep :=
  r.steps.filter fun s => ¬ s.kind = .bleed

def stepsAmount (l : List BlendStep) : ℚ :=
  (l.map BlendStep.amount).sum

def stepO2Fraction (topGas : GasSelection) (s : BlendStep) : ℚ :=
  match s.kind with
  | .oxygen => 1
  | .topoff => fraction topGas.o2
  | _ => 0

def stepHeFraction (topGas : GasSelection) (s : BlendStep) : ℚ :=
  match s.kind with
  | .helium => 1
  | .topoff => fraction topGas.he
  | _ => 0

def stepsO2Amount (topGas : GasSelection) (l : List BlendStep) : ℚ :=
  (l.map fun s => s.amount * stepO2Fraction topGas s).sum

def stepsHeAmount (topGas : GasSelection) (l : List BlendStep) : ℚ :=
  (l.map fun s => s.amount * stepHeFraction topGas s).sum

/-- The start pressure the AddGas steps of a plan are computed against: the
post-bleed pressure when a bleed was found, the original start pressure otherwise. -/
def effectiveStart (r : BlendResult) (startPsi : ℚ) : ℚ :=
  (r.bleedPressure).getD startPsi

def psiSettings : BlendSettings := { pressureUnit := .psi }

def zeroCostSettings : CostSettings :=
  { pricePerCuFtO2 := 0, pricePerCuFtHe := 0, tankSizeCuFt := 0, tankRatedPressure := 0 }

/-- Tiny-pressure input exhibiting a successful plan whose achieved composition
deviates from the target by far more than 0.1 percent. -/
def tinyPressureInput : StandardBlendInput :=
  { startO2 := 0, startHe := 2, startPressure := 1 / 20000, targetO2 := 51, targetHe := 0,
    targetPressure := 1 / 10000, topGasId := "oxygen" }

/-- Standard EAN32 fill used as a witness input. -/
def ean32Input : StandardBlendInput :=
  { startO2 := 21, startHe := 0, startPressure := 500, targetO2 := 32, targetHe := 0,
    targetPressure := 3000, topGasId := "air" }

/-- Input whose nitrogen delta mismatch (sum of component deltas exceeding the
total delta) is recovered by the bleed-down search despite a pure top-off gas. -/
def bleedRecoveryInput : StandardBlendInput :=
  { startO2 := 21, startHe := 0, startPressure := 1000, targetO2 := 321 / 4, targetHe := 0,
    targetPressure := 2000, topGasId := "oxygen" }

/-- Input on which the solver reports the unreachable-with-top-gas error. -/
def unreachableTopGasInput : StandardBlendInput :=
  { startO2 := 21, startHe := 0, startPressure := 1000, targetO2 := 50, targetHe := 0,
    targetPressure := 2000, topGasId := "oxygen" }

/-- Trimix fill input for the broken reverse solver: topping 21/35 up to 3000 PSI
with 21/35 itself never needs helium, yet the solver still fails. -/
def trimixTopInput : StandardBlendInput :=
  { startO2 := 21, startHe := 35, startPressure := 1000, targetO2 := 21, targetHe := 35,
    targetPressure := 3000, topGasId := "tmx" }

def trimix2135 : GasSelection := { id := "tmx", name := "21/35", o2 := 21, he := 35 }

/-- Pure-oxygen target at zero target pressure: the helium-free short circuit
reports success around a failing embedded blend. -/
def pureO2ZeroTargetInput : StandardBlendInput :=
  { startO2 := 21, startHe := 0, startPressure := 0, targetO2 := 100, targetHe := 0,
    targetPressure := 0, topGasId := "air" }

/-- Target mix summing to 100.0001 percent. -/
def overfullMixInput : StandardBlendInput :=
  { startO2 := 21, startHe := 0, startPressure := 0, targetO2 := 60, targetHe := 400001 / 10000,
    targetPressure := 3000, topGasId := "air" }

/-- Projections of the two-gas solver result, used to state its values. -/
def twoGasOk : TwoGasBlendResult → Bool
  | .ok _ _ _ _ _ => true
  | .err _ => false

def twoGasAmount1 : TwoGasBlendResult → ℚ
  | .ok g1 _ _ _ _ => g1
  | .err _ => 0

def twoGasAmount2 : TwoGasBlendResult → ℚ
  | .ok _ g2 _ _ _ => g2
  | .err _ => 0

def twoGasFinalO2 : TwoGasBlendResult → ℚ
  | .ok _ _ o _ _ => o
  | .err _ => 0

def twoGasFinalHe : TwoGasBlendResult → ℚ
  | .ok _ _ _ h _ => h
  | .err _ => 0

def twoGasWarning : TwoGasBlendResult → Option String
  | .ok _ _ _ _ w => w
  | .err _ => none

/-- Three gases with identical O2-to-He ratios (2:1), linearly dependent. -/
def ratioGas10 : GasSelection := { id := "g10", name := "10/5", o2 := 10, he := 5 }

def ratioGas20 : GasSelection := { id := "g20", name := "20/10", o2 := 20, he := 10 }

def ratioGas40 : GasSelection := { id := "g40", name := "40/20", o2 := 40, he := 20 }

/-- The successful solve outcome record with the three clamped components. -/
def mkOutcome (h o t : ℚ) : SolveOutcome :=
  { success := true, requiresBleed := false, message := none,
    helium := some h, oxygen := some o, topoff := some t }

/-- Air top-up from empty used as a nonnegativity witness input. -/
def c3WitnessInput : StandardBlendInput :=
  { startO2 := 21, startHe := 0, startPressure := 0, targetO2 := 21, targetHe := 0,
    targetPressure := 100, topGasId := "air" }

lemma sanitizeMix_valid_iff (o2 he : ℚ) :
    (sanitizeMix o2 he).valid = true ↔
      0 ≤ o2 ∧ 0 ≤ he ∧ o2 ≤ 100 ∧ he ≤ 100 ∧ o2 + he ≤ 100 + 1 / 1000000000 := by
  unfold sanitizeMix
  split_ifs with h1 h2 h3
  · simp only [Bool.false_eq_true, false_iff]
    rintro ⟨a, b, -, -, -⟩
    rcases h1 with h | h <;> linarith
  · simp only [Bool.false_eq_true, false_iff]
    rintro ⟨-, -, c, d, -⟩
    rcases h2 with h | h <;> linarith
  · simp only [Bool.false_eq_true, false_iff]
    rintro ⟨-, -, -, -, e⟩
    linarith
  · push_neg at h1 h2
    simp only [true_iff]
    exact ⟨h1.1, h1.2, h2.1, h2.2, by linarith [not_lt.mp h3]⟩

/-- C8: the mix validator accepts a pair exactly when both percentages are
nonnegative, both are at most 100, and their sum is at most 100 plus the 1e-9
tolerance; in particular a target of 60 percent O2 plus 40.0001 percent He
(sum 100.0001 percent) is rejected as an invalid mix and the standard blend
produces no plan, only the invalid-mix error. -/
theorem c8_sanitize_mix_characterization :
    (∀ o2 he : ℚ, (sanitizeMix o2 he).valid = true ↔
      0 ≤ o2 ∧ 0 ≤ he ∧ o2 ≤ 100 ∧ he ≤ 100 ∧ o2 + he ≤ 100 + 1 / 1000000000) ∧
    (sanitizeMix 60 (400001 / 10000)).valid = false ∧
    (calculateStandardBlend psiSettings overfullMixInput airGas).success = false ∧
    (calculateStandardBlend psiSettings overfullMixInput airGas).steps = [] ∧
    (calculateStandardBlend psiSettings overfullMixInput airGas).errors =
      ["O2% + He% must be 100% or less."] := by
  refine ⟨sanitizeMix_valid_iff, ?_, ?_, ?_, ?_⟩ <;> with_unfolding_all decide

/-- C8 witness: the characterization applied at the concrete pair (21, 0),
which the validator accepts. -/
theorem c8_witness : (sanitizeMix 21 0).valid = true :=
  (c8_sanitize_mix_characterization.1 21 0).mpr (by norm_num)

/-- C10: when the maximum admissible target helium (100 minus the target O2,
clamped to [0, 100]) is at most the tolerance, solveMaxTargetWithoutHelium
reports success with targetHe 0 and the blend recomputed at targetHe 0, without
checking that this embedded blend itself succeeded; at a pure-O2 target with
zero target pressure the result reports success while its embedded BlendResult
has success false. -/
theorem c10_no_helium_short_circuit :
    (∀ settings inputs topGas,
      max 0 (min (100 - inputs.targetO2) 100) ≤ tolerance →
      solveMaxTargetWithoutHelium settings inputs topGas =
        { success := true, targetHe := 0,
          blend := some (calculateStandardBlend settings { inputs with targetHe := 0 } topGas),
          warnings := [], errors := [] }) ∧
    (solveMaxTargetWithoutHelium psiSettings pureO2ZeroTargetInput airGas).success = true ∧
    (solveMaxTargetWithoutHelium psiSettings pureO2ZeroTargetInput airGas).blend.map
      (fun b => b.success) = some false := by
  refine ⟨?_, ?_, ?_⟩
  · intro settings inputs topGas h
    unfold solveMaxTargetWithoutHelium
    rw [if_pos h]
  · with_unfolding_all decide
  · with_unfolding_all decide

/-- C10 witness: the short-circuit applied at the concrete pure-O2 input, whose
admissible helium budget is zero. -/
theorem c10_witness :
    max 0 (min (100 - pureO2ZeroTargetInput.targetO2) 100) ≤ tolerance ∧
    solveMaxTargetWithoutHelium psiSettings pureO2ZeroTargetInput airGas =
      { success := true, targetHe := 0,
        blend := some (calculateStandardBlend psiSettings
          { pureO2ZeroTargetInput with targetHe := 0 } airGas),
        warnings := [], errors := [] } :=
  ⟨by with_unfolding_all decide,
    c10_no_helium_short_circuit.1 psiSettings pureO2ZeroTargetInput airGas
      (by with_unfolding_all decide)⟩

/-- C9 counterexample: a successful solveNGasBlend call with supplied index -1
returns selectedIndex -1, outside the valid range [0, n-1]: the caller-supplied
index is not clamped from below. -/
theorem c9_counterexample :
    (solveNGasBlend psiSettings 3000 21 0 0 21 0 [airGas] zeroCostSettings (-1)).success = true ∧
    (solveNGasBlend psiSettings 3000 21 0 0 21 0 [airGas] zeroCostSettings (-1)).selectedIndex = -1 ∧
    ¬ (0 ≤ (solveNGasBlend psiSettings 3000 21 0 0 21 0 [airGas]
      zeroCostSettings (-1)).selectedIndex) := by
  refine ⟨?_, ?_, ?_⟩ <;> with_unfolding_all decide

lemma rat_le_ge_eq {a b : ℚ} (h1 : a ≤ b) (h2 : b ≤ a) : a = b := le_antisymm h1 h2

/-- C2 counterexample: for start 0 PSI, target 3000 PSI at 32/0 with sources
Air (21/0) and pure O2 (100/0), the two-gas solver does succeed, but the pure-O2
amount is 33000/79 (about 417.7) PSI and the Air amount 204000/79 (about 2582.3)
PSI, each more than 50 PSI away from the approximately 471.5 and 2528.5 PSI the
claim states. -/
theorem c2_counterexample :
    twoGasOk (solveTwoGasBlend 3000 32 0 airGas oxygenGas) = true ∧
    ¬ |twoGasAmount2 (solveTwoGasBlend 3000 32 0 airGas oxygenGas) - 943 / 2| ≤ 50 ∧
    ¬ |twoGasAmount1 (solveTwoGasBlend 3000 32 0 airGas oxygenGas) - 5057 / 2| ≤ 50 := by
  refine ⟨?_, ?_, ?_⟩ <;> with_unfolding_all decide

/-- C2 amended: the two-gas solve of 3000 PSI at 32/0 from Air (gas 1) and pure
O2 (gas 2) succeeds with exactly 33000/79 PSI (about 417.7) of pure O2 and
204000/79 PSI (about 2582.3) of Air and no warning, reporting the blended mix
32/0; these amounts are the exact solution of P1*21 + P2*100 = 3000*32,
P1 + P2 = 3000. The alternative-generator two-gas solver returns the same
amounts. -/
theorem c2_two_gas_solution :
    twoGasOk (solveTwoGasBlend 3000 32 0 airGas oxygenGas) = true ∧
    twoGasAmount1 (solveTwoGasBlend 3000 32 0 airGas oxygenGas) = 204000 / 79 ∧
    twoGasAmount2 (solveTwoGasBlend 3000 32 0 airGas oxygenGas) = 33000 / 79 ∧
    twoGasFinalO2 (solveTwoGasBlend 3000 32 0 airGas oxygenGas) = 32 ∧
    twoGasFinalHe (solveTwoGasBlend 3000 32 0 airGas oxygenGas) = 0 ∧
    twoGasWarning (solveTwoGasBlend 3000 32 0 airGas oxygenGas) = none ∧
    ((tryTwoGasSolution 3000 32 0 airGas oxygenGas).map TwoGasSolution.gas1Amount).getD 0 =
      204000 / 79 ∧
    ((tryTwoGasSolution 3000 32 0 airGas oxygenGas).map TwoGasSolution.gas2Amount).getD 0 =
      33000 / 79 ∧
    (204000 : ℚ) / 79 * 21 + 33000 / 79 * 100 = 3000 * 32 ∧
    (204000 : ℚ) / 79 + 33000 / 79 = 3000 := by
  refine ⟨by with_unfolding_all decide,
    rat_le_ge_eq ?_ ?_, rat_le_ge_eq ?_ ?_, rat_le_ge_eq ?_ ?_, rat_le_ge_eq ?_ ?_,
    by with_unfolding_all decide, rat_le_ge_eq ?_ ?_, rat_le_ge_eq ?_ ?_,
    by norm_num, by norm_num⟩ <;> with_unfolding_all decide

/-- C9 amended: for every successful solveNGasBlend call the returned
selectedIndex is min(suppliedIndex, n-1) where n is the number of alternatives
(n is at least 1); this lies in the valid range [0, n-1] whenever the supplied
index is nonnegative, but a negative supplied index is returned unchanged
rather than clamped up to 0. -/
theorem c9_selected_index_min_clamp (settings : BlendSettings)
    (tP tO2 tHe sP sO2 sHe : ℚ) (gases : List GasSelection) (cs : CostSettings) (idx : ℤ)
    (h : (solveNGasBlend settings tP tO2 tHe sP sO2 sHe gases cs idx).success = true) :
    1 ≤ (solveNGasBlend settings tP tO2 tHe sP sO2 sHe gases cs idx).alternatives.length ∧
    (solveNGasBlend settings tP tO2 tHe sP sO2 sHe gases cs idx).selectedIndex =
      min idx (((solveNGasBlend settings tP tO2 tHe sP sO2 sHe gases cs idx).alternatives.length : ℤ) - 1) ∧
    (0 ≤ idx →
      0 ≤ (solveNGasBlend settings tP tO2 tHe sP sO2 sHe gases cs idx).selectedIndex ∧
      (solveNGasBlend settings tP tO2 tHe sP sO2 sHe gases cs idx).selectedIndex ≤
        ((solveNGasBlend settings tP tO2 tHe sP sO2 sHe gases cs idx).alternatives.length : ℤ) - 1) := by
  simp only [solveNGasBlend] at h ⊢
  split_ifs at h ⊢ with h1 h2 h3 h4 h5 h6 h7
  all_goals try simp only [Option.map_some', Option.getD_some, Option.map_none',
    Option.getD_none] at *
  all_goals try exact absurd h4.1 h7
  all_goals refine ⟨by omega, by trivial, fun hidx => ⟨le_min hidx (by omega), min_le_right _ _⟩⟩

/-- C9 witness: the clamp theorem applied to a successful call with supplied
index 2 and a single alternative, returning selectedIndex 0. -/
theorem c9_witness :
    (solveNGasBlend psiSettings 3000 21 0 0 21 0 [airGas] zeroCostSettings 2).success = true ∧
    (solveNGasBlend psiSettings 3000 21 0 0 21 0 [airGas] zeroCostSettings 2).selectedIndex =
      min 2 (((solveNGasBlend psiSettings 3000 21 0 0 21 0 [airGas]
        zeroCostSettings 2).alternatives.length : ℤ) - 1) :=
  ⟨by with_unfolding_all decide,
    (c9_selected_index_min_clamp psiSettings 3000 21 0 0 21 0 [airGas] zeroCostSettings 2
      (by with_unfolding_all decide)).2.1⟩

lemma fromDisplay_toDisplay (x : ℚ) (u : PressureUnit) :
    fromDisplayPressure (toDisplayPressure x u) u = x := by
  cases u
  · rfl
  · show x / psiPerBar * psiPerBar = x
    rw [div_mul_cancel₀]
    norm_num [psiPerBar]

/-- At equal start and target pressure the two-source solver always fails: the
total delta is exactly zero, so either an earlier guard fires or the
pressure-matches guard rejects. -/
lemma solveBlend_eq_pressures (bi : BlendInputs)
    (h : bi.startPressure = bi.targetPressure) :
    (solveBlend bi).success = false := by
  have h8 : isCloseToZero (bi.targetPressure - bi.startPressure) = true := by
    rw [h, sub_self]
    with_unfolding_all decide
  simp only [solveBlend, apply_ite SolveOutcome.success, solveFailure, h8, if_true]
  simp [ite_self]

/-- When the converted start pressure equals the converted target pressure, the
standard blend either fails outright or only succeeds through a bleed plan. -/
lemma calculateStandardBlend_eq_pressures (settings : BlendSettings)
    (inputs : StandardBlendInput) (topGas : GasSelection)
    (h : fromDisplayPressure inputs.startPressure settings.pressureUnit =
      fromDisplayPressure inputs.targetPressure settings.pressureUnit) :
    (calculateStandardBlend settings inputs topGas).success = false ∨
      hasBleedStep (calculateStandardBlend settings inputs topGas) = true := by
  have hsb : (solveBlend (standardBlendInputs settings inputs topGas)).success = false :=
    solveBlend_eq_pressures _ (by simpa [standardBlendInputs] using h)
  simp only [calculateStandardBlend, hsb, Bool.false_eq_true, if_false]
  split_ifs <;> try exact Or.inl rfl
  all_goals rcases (findBleedSolution (standardBlendInputs settings inputs topGas)).2 with _ | bp
  all_goals try exact Or.inl rfl
  all_goals exact Or.inr (by simp [hasBleedStep])

/-- C6: the reverse solver for the helium-free required start pressure can never
succeed. Its feasibility gate evaluates the plan at a hypothetical start
pressure equal to the full target pressure; at that point the total pressure
delta is exactly zero, so the underlying two-source solve always rejects
(pressure already matches) or demands a bleed, and the gate reports the
helium-at-full-pressure error for every input. This contradicts the claim,
which describes the gate as failing exactly when helium is needed at full
pressure and the search as succeeding otherwise. -/
theorem c6_required_start_pressure_always_fails (settings : BlendSettings)
    (inputs : StandardBlendInput) (topGas : GasSelection) :
    (solveRequiredStartPressure settings inputs topGas).success = false := by
  simp only [solveRequiredStartPressure]
  split_ifs with h1 h2
  · rfl
  · rfl
  · exfalso
    apply h2
    rcases calculateStandardBlend_eq_pressures settings { inputs with startPressure := toDisplayPressure (fromDisplayPressure inputs.targetPressure settings.pressureUnit) settings.pressureUnit } topGas (by simp [fromDisplay_toDisplay]) with hf | hb
    · exact Or.inl (by simp [requiredStartEvaluate, hf])
    · exact Or.inr (Or.inl (by simpa [requiredStartEvaluate] using hb))

/-- C7: the 3-gas solver realizes the Cramer rule on the system g1+g2+g3 = P,
sum gi*O2i = P*O2target, sum gi*Hei = P*Hetarget, and returns no solution (a)
whenever the system determinant is smaller than the tolerance in absolute value
(in particular whenever it is singular, as for three gases with identical
O2/He ratios), (b) whenever a solved component is negative beyond the
tolerance, (c) whenever the clamped component total deviates from the added
pressure by more than max(1, 1 percent of the added pressure); and (d) when the
determinant is nonzero the Cramer components satisfy all three equations
exactly. -/
theorem c7_three_gas_cramer :
    (∀ (P nO2 nHe : ℚ) (gas1 gas2 gas3 : GasSelection),
      |threeGasDetA (fraction gas1.o2) (fraction gas1.he) (fraction gas2.o2)
        (fraction gas2.he) (fraction gas3.o2) (fraction gas3.he)| < tolerance →
      tryThreeGasSolution P nO2 nHe gas1 gas2 gas3 = none) ∧
    (∀ (P nO2 nHe : ℚ) (gas1 gas2 gas3 : GasSelection),
      ((threeGasCramer P (fraction nO2) (fraction nHe) (fraction gas1.o2) (fraction gas1.he)
          (fraction gas2.o2) (fraction gas2.he) (fraction gas3.o2) (fraction gas3.he)).1 <
          -tolerance ∨
        (threeGasCramer P (fraction nO2) (fraction nHe) (fraction gas1.o2) (fraction gas1.he)
          (fraction gas2.o2) (fraction gas2.he) (fraction gas3.o2) (fraction gas3.he)).2.1 <
          -tolerance ∨
        (threeGasCramer P (fraction nO2) (fraction nHe) (fraction gas1.o2) (fraction gas1.he)
          (fraction gas2.o2) (fraction gas2.he) (fraction gas3.o2) (fraction gas3.he)).2.2 <
          -tolerance) →
      tryThreeGasSolution P nO2 nHe gas1 gas2 gas3 = none) ∧
    (∀ (P nO2 nHe : ℚ) (gas1 gas2 gas3 : GasSelection),
      abs (max 0 (threeGasCramer P (fraction nO2) (fraction nHe) (fraction gas1.o2)
            (fraction gas1.he) (fraction gas2.o2) (fraction gas2.he) (fraction gas3.o2)
            (fraction gas3.he)).1 +
          max 0 (threeGasCramer P (fraction nO2) (fraction nHe) (fraction gas1.o2)
            (fraction gas1.he) (fraction gas2.o2) (fraction gas2.he) (fraction gas3.o2)
            (fraction gas3.he)).2.1 +
          max 0 (threeGasCramer P (fraction nO2) (fraction nHe) (fraction gas1.o2)
            (fraction gas1.he) (fraction gas2.o2) (fraction gas2.he) (fraction gas3.o2)
            (fraction gas3.he)).2.2 - P) > max 1 (P * (1 / 100)) →
      tryThreeGasSolution P nO2 nHe gas1 gas2 gas3 = none) ∧
    (∀ P tO2 tHe o1 h1 o2 h2 o3 h3 : ℚ,
      threeGasDetA o1 h1 o2 h2 o3 h3 ≠ 0 →
      (threeGasCramer P tO2 tHe o1 h1 o2 h2 o3 h3).1 +
          (threeGasCramer P tO2 tHe o1 h1 o2 h2 o3 h3).2.1 +
          (threeGasCramer P tO2 tHe o1 h1 o2 h2 o3 h3).2.2 = P ∧
        (threeGasCramer P tO2 tHe o1 h1 o2 h2 o3 h3).1 * o1 +
          (threeGasCramer P tO2 tHe o1 h1 o2 h2 o3 h3).2.1 * o2 +
          (threeGasCramer P tO2 tHe o1 h1 o2 h2 o3 h3).2.2 * o3 = P * tO2 ∧
        (threeGasCramer P tO2 tHe o1 h1 o2 h2 o3 h3).1 * h1 +
          (threeGasCramer P tO2 tHe o1 h1 o2 h2 o3 h3).2.1 * h2 +
          (threeGasCramer P tO2 tHe o1 h1 o2 h2 o3 h3).2.2 * h3 = P * tHe) := by
  refine ⟨?_, ?_, ?_, ?_⟩
  · intro P nO2 nHe gas1 gas2 gas3 hdet
    simp only [tryThreeGasSolution]
    split_ifs with h1 h2 h3 h4 h5 <;> first | rfl | exact absurd hdet h3
  · intro P nO2 nHe gas1 gas2 gas3 hneg
    simp only [tryThreeGasSolution]
    split_ifs with h1 h2 h3 h4 h5 <;> first | rfl | exact absurd hneg h4
  · intro P nO2 nHe gas1 gas2 gas3 htot
    simp only [tryThreeGasSolution]
    split_ifs with h1 h2 h3 h4 h5 <;> first | rfl | exact absurd htot (by push_neg at h5 ⊢; exact h5)
  · intro P tO2 tHe o1 h1 o2 h2 o3 h3 hdet
    simp only [threeGasCramer]
    refine ⟨?_, ?_, ?_⟩
    · rw [div_add_div_same, div_add_div_same, div_eq_iff hdet]
      unfold threeGasDetA1 threeGasDetA2 threeGasDetA3 threeGasDetA
      ring
    · rw [div_mul_eq_mul_div, div_mul_eq_mul_div, div_mul_eq_mul_div,
        div_add_div_same, div_add_div_same, div_eq_iff hdet]
      unfold threeGasDetA1 threeGasDetA2 threeGasDetA3 threeGasDetA
      ring
    · rw [div_mul_eq_mul_div, div_mul_eq_mul_div, div_mul_eq_mul_div,
        div_add_div_same, div_add_div_same, div_eq_iff hdet]
      unfold threeGasDetA1 threeGasDetA2 threeGasDetA3 threeGasDetA
      ring

/-- C7 witness: the singular-determinant rejection applied to the three linearly
dependent gases 10/5, 20/10, 40/20. -/
theorem c7_witness :
    |threeGasDetA (fraction ratioGas10.o2) (fraction ratioGas10.he) (fraction ratioGas20.o2)
      (fraction ratioGas20.he) (fraction ratioGas40.o2) (fraction ratioGas40.he)| < tolerance ∧
    tryThreeGasSolution 1000 30 10 ratioGas10 ratioGas20 ratioGas40 = none :=
  ⟨by with_unfolding_all decide,
    c7_three_gas_cramer.1 1000 30 10 ratioGas10 ratioGas20 ratioGas40
      (by with_unfolding_all decide)⟩

lemma tolerance_pos : (0 : ℚ) < tolerance := by norm_num [tolerance]

lemma clamp_bounds (v : ℚ) (hv : -tolerance ≤ v) :
    v ≤ max 0 v ∧ max 0 v ≤ v + tolerance ∧ 0 ≤ max 0 v := by
  refine ⟨le_max_right 0 v, max_le ?_ ?_, le_max_left 0 v⟩
  · have := tolerance_pos
    linarith
  · have := tolerance_pos
    linarith

/-- Inversion of the solveBlendFinish tail on success: the result is the
clamped triple and each pre-clamp component was at least minus the tolerance. -/
lemma solveBlendFinish_success (P T a b c : ℚ)
    (hs : (solveBlendFinish P T a b c).success = true) :
    solveBlendFinish P T a b c =
      { success := true, requiresBleed := false, message := none,
        helium := some (max 0 a), oxygen := some (max 0 b), topoff := some (max 0 c) } ∧
    -tolerance ≤ a ∧ -tolerance ≤ b ∧ -tolerance ≤ c := by
  simp only [solveBlendFinish] at hs ⊢
  split_ifs at hs ⊢ with h1 h2
  · simp [solveFailure] at hs
  · simp [solveFailure] at hs
  · push_neg at h1
    exact ⟨rfl, by linarith [h1.1], by linarith [h1.2.1], by linarith [h1.2.2]⟩

/-- Mass-balance bounds for the pure-top-off branch (top gas nitrogen fraction
above tolerance): exact balance up to the clamping of tiny negatives. -/
lemma branchA_bounds (P T dHe dO2 a0 b0 t0 x sO2 sHe tO2 tHe pO2 pHe : ℚ)
    (hxx : x = 1 - pO2 - pHe)
    (haeq : a0 = dHe - pHe * t0) (hbeq : b0 = dO2 - pO2 * t0)
    (hteq : t0 * x = T - P - dHe - dO2)
    (hdO2 : dO2 = T * tO2 - P * sO2) (hdHe : dHe = T * tHe - P * sHe)
    (hpO2 : 0 ≤ pO2) (hpO2u : pO2 ≤ 1) (hpHe : 0 ≤ pHe) (hpHeu : pHe ≤ 1)
    (ha : -tolerance ≤ a0) (hb : -tolerance ≤ b0) (hc : -tolerance ≤ t0) :
    |P + max 0 a0 + max 0 b0 + max 0 t0 - T| ≤ 1 / 10000 + 3 * tolerance ∧
    |P * sO2 + max 0 b0 + max 0 t0 * pO2 - T * tO2| ≤ 2 * tolerance ∧
    |P * sHe + max 0 a0 + max 0 t0 * pHe - T * tHe| ≤ 2 * tolerance := by
  obtain ⟨ca1, ca2, -⟩ := clamp_bounds a0 ha
  obtain ⟨cb1, cb2, -⟩ := clamp_bounds b0 hb
  obtain ⟨cc1, cc2, -⟩ := clamp_bounds t0 hc
  rw [hxx] at hteq
  have key0 : P + a0 + b0 + t0 - T = 0 := by
    rw [haeq, hbeq]
    linear_combination hteq
  have keyO2 : P * sO2 + b0 + t0 * pO2 - T * tO2 = 0 := by
    rw [hbeq, hdO2]
    ring
  have keyHe : P * sHe + a0 + t0 * pHe - T * tHe = 0 := by
    rw [haeq, hdHe]
    ring
  have hto : 0 ≤ max 0 t0 - t0 := by linarith
  have hto2 : max 0 t0 - t0 ≤ tolerance := by linarith
  have hmulO2a : 0 ≤ (max 0 t0 - t0) * pO2 := mul_nonneg hto hpO2
  have hmulO2b : (max 0 t0 - t0) * pO2 ≤ tolerance := by
    calc (max 0 t0 - t0) * pO2 ≤ (max 0 t0 - t0) * 1 := by
          exact mul_le_mul_of_nonneg_left hpO2u hto
      _ = max 0 t0 - t0 := by ring
      _ ≤ tolerance := hto2
  have hmulHea : 0 ≤ (max 0 t0 - t0) * pHe := mul_nonneg hto hpHe
  have hmulHeb : (max 0 t0 - t0) * pHe ≤ tolerance := by
    calc (max 0 t0 - t0) * pHe ≤ (max 0 t0 - t0) * 1 := by
          exact mul_le_mul_of_nonneg_left hpHeu hto
      _ = max 0 t0 - t0 := by ring
      _ ≤ tolerance := hto2
  have hO2key : P * sO2 + max 0 b0 + max 0 t0 * pO2 - T * tO2 =
      (max 0 b0 - b0) + (max 0 t0 - t0) * pO2 := by
    have : P * sO2 + max 0 b0 + max 0 t0 * pO2 - T * tO2 =
        (P * sO2 + b0 + t0 * pO2 - T * tO2) + (max 0 b0 - b0) + (max 0 t0 - t0) * pO2 := by
      ring
    rw [this, keyO2]
    ring
  have hHekey : P * sHe + max 0 a0 + max 0 t0 * pHe - T * tHe =
      (max 0 a0 - a0) + (max 0 t0 - t0) * pHe := by
    have : P * sHe + max 0 a0 + max 0 t0 * pHe - T * tHe =
        (P * sHe + a0 + t0 * pHe - T * tHe) + (max 0 a0 - a0) + (max 0 t0 - t0) * pHe := by
      ring
    rw [this, keyHe]
    ring
  have := tolerance_pos
  refine ⟨abs_le.mpr ⟨by linarith, by linarith⟩, ?_, ?_⟩
  · rw [hO2key]
    exact abs_le.mpr ⟨by linarith, by linarith⟩
  · rw [hHekey]
    exact abs_le.mpr ⟨by linarith, by linarith⟩

/-- Mass-balance bounds for the nitrogen-free top gas branch: the nitrogen
delta mismatch is at most 1e-4 and only helium and oxygen are added. -/
lemma branchB_bounds (P T dHe dO2 sO2 sHe tO2 tHe pO2 pHe : ℚ)
    (hdO2 : dO2 = T * tO2 - P * sO2) (hdHe : dHe = T * tHe - P * sHe)
    (hnd : |T - P - (dHe + dO2)| ≤ 1 / 10000)
    (ha : -tolerance ≤ dHe) (hb : -tolerance ≤ dO2) :
    |P + max 0 dHe + max 0 dO2 + max 0 0 - T| ≤ 1 / 10000 + 3 * tolerance ∧
    |P * sO2 + max 0 dO2 + max 0 0 * pO2 - T * tO2| ≤ 2 * tolerance ∧
    |P * sHe + max 0 dHe + max 0 0 * pHe - T * tHe| ≤ 2 * tolerance := by
  obtain ⟨ca1, ca2, -⟩ := clamp_bounds dHe ha
  obtain ⟨cb1, cb2, -⟩ := clamp_bounds dO2 hb
  have hmz : max (0:ℚ) 0 = 0 := max_self 0
  obtain ⟨hnd1, hnd2⟩ := abs_le.mp hnd
  have := tolerance_pos
  refine ⟨abs_le.mpr ⟨by nlinarith, by nlinarith⟩, ?_, ?_⟩
  · have : P * sO2 + max 0 dO2 + max 0 0 * pO2 - T * tO2 = (max 0 dO2 - dO2) := by
      rw [hmz, hdO2]
      ring
    rw [this]
    exact abs_le.mpr ⟨by linarith, by linarith⟩
  · have : P * sHe + max 0 dHe + max 0 0 * pHe - T * tHe = (max 0 dHe - dHe) := by
      rw [hmz, hdHe]
      ring
    rw [this]
    exact abs_le.mpr ⟨by linarith, by linarith⟩

lemma fraction_bounds (x : ℚ) (h0 : 0 ≤ x) (h1 : x ≤ 100) :
    0 ≤ fraction x ∧ fraction x ≤ 1 := by
  unfold fraction
  constructor
  · positivity
  · rw [div_le_one (by norm_num)]
    linarith

/-- Inversion of a successful two-source solve: the three emitted components
are nonnegative, the post-solve pressure balances the target within the
nitrogen-delta tolerance plus three clampings, and the oxygen and helium
partial pressures balance within two clampings each. -/
lemma solveBlend_success_bounds (bi : BlendInputs)
    (hs : (solveBlend bi).success = true) :
    ∃ h o t : ℚ,
      solveBlend bi = { success := true, requiresBleed := false, message := none, helium := some h, oxygen := some o, topoff := some t } ∧
      0 ≤ h ∧ 0 ≤ o ∧ 0 ≤ t ∧
      |bi.startPressure + h + o + t - bi.targetPressure| ≤ 1 / 10000 + 3 * tolerance ∧
      |bi.startPressure * fraction bi.startO2 + o + t * fraction bi.topGas.o2 -
          bi.targetPressure * fraction bi.targetO2| ≤ 2 * tolerance ∧
      |bi.startPressure * fraction bi.startHe + h + t * fraction bi.topGas.he -
          bi.targetPressure * fraction bi.targetHe| ≤ 2 * tolerance ∧
      0 ≤ fraction bi.targetO2 ∧ fraction bi.targetO2 ≤ 1 ∧
      0 ≤ fraction bi.targetHe ∧ fraction bi.targetHe ≤ 1 ∧
      0 ≤ fraction bi.topGas.o2 ∧ fraction bi.topGas.o2 ≤ 1 ∧
      0 ≤ fraction bi.topGas.he ∧ fraction bi.topGas.he ≤ 1 := by
  have hs' := hs
  simp only [solveBlend, apply_ite SolveOutcome.success, solveFailure] at hs'
  simp at hs'
  obtain ⟨hp1, hp2, hv1, hv2, hv3, hn2, ⟨hdo2, hdhe, hdn2⟩, hcz, htail⟩ := hs'
  have c1 : ¬ bi.targetPressure ≤ 0 := not_le.mpr hp1
  have c2 : ¬ bi.startPressure > bi.targetPressure + tolerance := not_lt.mpr hp2
  have c3 : ¬ ¬ (sanitizeMix bi.startO2 bi.startHe).valid = true := not_not_intro hv1
  have c4 : ¬ ¬ (sanitizeMix bi.targetO2 bi.targetHe).valid = true := not_not_intro hv2
  have c5 : ¬ ¬ (sanitizeMix bi.topGas.o2 bi.topGas.he).valid = true := not_not_intro hv3
  have c6 : ¬ (1 - fraction bi.targetO2 - fraction bi.targetHe < -tolerance) :=
    not_lt.mpr (by linarith)
  have c7 : ¬ (bi.targetPressure * fraction bi.targetO2 -
        bi.startPressure * fraction bi.startO2 < -tolerance ∨
      bi.targetPressure * fraction bi.targetHe -
        bi.startPressure * fraction bi.startHe < -tolerance ∨
      bi.targetPressure * (1 - fraction bi.targetO2 - fraction bi.targetHe) -
        bi.startPressure * (max 0 (1 - fraction bi.startO2 - fraction bi.startHe)) <
        -tolerance) := by
    push_neg
    exact ⟨by linarith, by linarith, by linarith⟩
  have c8 : ¬ (isCloseToZero (bi.targetPressure - bi.startPressure) = true) := by
    simp [hcz]
  obtain ⟨htO2a, htHea, htO2b, htHeb, -⟩ := (sanitizeMix_valid_iff _ _).mp hv2
  obtain ⟨hpO2a, hpHea, hpO2b, hpHeb, -⟩ := (sanitizeMix_valid_iff _ _).mp hv3
  obtain ⟨hft1, hft2⟩ := fraction_bounds _ htO2a htO2b
  obtain ⟨hft3, hft4⟩ := fraction_bounds _ htHea htHeb
  obtain ⟨hfp1, hfp2⟩ := fraction_bounds _ hpO2a hpO2b
  obtain ⟨hfp3, hfp4⟩ := fraction_bounds _ hpHea hpHeb
  by_cases hc : tolerance < 1 - fraction bi.topGas.o2 - fraction bi.topGas.he
  · -- top gas carries nitrogen: full three-component branch
    rw [if_pos (Or.inr hc)] at htail
    obtain ⟨heq, ha, hb, hcneg⟩ := solveBlendFinish_success _ _ _ _ _ htail
    have c9 : max 0 (1 - fraction bi.topGas.o2 - fraction bi.topGas.he) > tolerance := by
      rw [gt_iff_lt, lt_max_iff]
      exact Or.inr hc
    have hxpos : (0 : ℚ) < max 0 (1 - fraction bi.topGas.o2 - fraction bi.topGas.he) :=
      lt_trans tolerance_pos c9
    have hmax : max 0 (1 - fraction bi.topGas.o2 - fraction bi.topGas.he) =
        1 - fraction bi.topGas.o2 - fraction bi.topGas.he :=
      max_eq_right (le_of_lt (lt_trans tolerance_pos hc))
    have hteq : (bi.targetPressure - bi.startPressure -
        (bi.targetPressure * fraction bi.targetHe - bi.startPressure * fraction bi.startHe) -
        (bi.targetPressure * fraction bi.targetO2 - bi.startPressure * fraction bi.startO2)) /
        max 0 (1 - fraction bi.topGas.o2 - fraction bi.topGas.he) *
        max 0 (1 - fraction bi.topGas.o2 - fraction bi.topGas.he) =
        bi.targetPressure - bi.startPressure -
          (bi.targetPressure * fraction bi.targetHe - bi.startPressure * fraction bi.startHe) -
          (bi.targetPressure * fraction bi.targetO2 - bi.startPressure * fraction bi.startO2) :=
      div_mul_cancel₀ _ (ne_of_gt hxpos)
    obtain ⟨BA1, BA2, BA3⟩ := branchA_bounds bi.startPressure bi.targetPressure
      (bi.targetPressure * fraction bi.targetHe - bi.startPressure * fraction bi.startHe)
      (bi.targetPressure * fraction bi.targetO2 - bi.startPressure * fraction bi.startO2)
      (bi.targetPressure * fraction bi.targetHe - bi.startPressure * fraction bi.startHe -
        fraction bi.topGas.he *
        ((bi.targetPressure - bi.startPressure -
          (bi.targetPressure * fraction bi.targetHe - bi.startPressure * fraction bi.startHe) -
          (bi.targetPressure * fraction bi.targetO2 - bi.startPressure * fraction bi.startO2)) /
          max 0 (1 - fraction bi.topGas.o2 - fraction bi.topGas.he)))
      (bi.targetPressure * fraction bi.targetO2 - bi.startPressure * fraction bi.startO2 -
        fraction bi.topGas.o2 *
        ((bi.targetPressure - bi.startPressure -
          (bi.targetPressure * fraction bi.targetHe - bi.startPressure * fraction bi.startHe) -
          (bi.targetPressure * fraction bi.targetO2 - bi.startPressure * fraction bi.startO2)) /
          max 0 (1 - fraction bi.topGas.o2 - fraction bi.topGas.he)))
      ((bi.targetPressure - bi.startPressure -
        (bi.targetPressure * fraction bi.targetHe - bi.startPressure * fraction bi.startHe) -
        (bi.targetPressure * fraction bi.targetO2 - bi.startPressure * fraction bi.startO2)) /
        max 0 (1 - fraction bi.topGas.o2 - fraction bi.topGas.he))
      (max 0 (1 - fraction bi.topGas.o2 - fraction bi.topGas.he))
      (fraction bi.startO2) (fraction bi.startHe) (fraction bi.targetO2) (fraction bi.targetHe)
      (fraction bi.topGas.o2) (fraction bi.topGas.he)
      hmax rfl rfl hteq rfl rfl hfp1 hfp2 hfp3 hfp4 ha hb hcneg
    refine ⟨_, _, _, ?_, (clamp_bounds _ ha).2.2, (clamp_bounds _ hb).2.2,
      (clamp_bounds _ hcneg).2.2, BA1, BA2, BA3, hft1, hft2, hft3, hft4,
      hfp1, hfp2, hfp3, hfp4⟩
    simp only [solveBlend]
    rw [if_neg c1, if_neg c2, if_neg c3, if_neg c4, if_neg c5, if_neg c6, if_neg c7,
      if_neg c8, if_pos c9]
    exact heq
  · -- nitrogen-free top gas branch: only helium and oxygen are dosed
    rw [if_neg (by rintro (hz | hz); exacts [absurd hz (by norm_num [tolerance]), hc hz])] at htail
    obtain ⟨hnd, hfin⟩ := htail
    obtain ⟨heq, ha, hb, hcneg⟩ := solveBlendFinish_success _ _ _ _ _ hfin
    have c9 : ¬ (max 0 (1 - fraction bi.topGas.o2 - fraction bi.topGas.he) > tolerance) := by
      rw [gt_iff_lt, lt_max_iff]
      rintro (hz | hz)
      · exact absurd hz (by norm_num [tolerance])
      · exact hc hz
    have c10 : ¬ ¬ (|bi.targetPressure - bi.startPressure -
        ((bi.targetPressure * fraction bi.targetHe - bi.startPressure * fraction bi.startHe) +
          (bi.targetPressure * fraction bi.targetO2 - bi.startPressure * fraction bi.startO2))| ≤
        1 / 10000) := not_not_intro (by simpa [one_div] using hnd)
    obtain ⟨BB1, BB2, BB3⟩ := branchB_bounds bi.startPressure bi.targetPressure
      (bi.targetPressure * fraction bi.targetHe - bi.startPressure * fraction bi.startHe)
      (bi.targetPressure * fraction bi.targetO2 - bi.startPressure * fraction bi.startO2)
      (fraction bi.startO2) (fraction bi.startHe) (fraction bi.targetO2) (fraction bi.targetHe)
      (fraction bi.topGas.o2) (fraction bi.topGas.he)
      rfl rfl (not_not.mp c10) ha hb
    refine ⟨_, _, _, ?_, (clamp_bounds _ ha).2.2, (clamp_bounds _ hb).2.2,
      (clamp_bounds _ hcneg).2.2, BB1, BB2, BB3, hft1, hft2, hft3, hft4,
      hfp1, hfp2, hfp3, hfp4⟩
    simp only [solveBlend]
    rw [if_neg c1, if_neg c2, if_neg c3, if_neg c4, if_neg c5, if_neg c6, if_neg c7,
      if_neg c8, if_neg c9, if_neg c10]
    exact heq

/-- Invariant of the bleed-down binary search: the bracket stays inside
[0, startPressure], and the best recorded outcome is the (successful) solve at
the recorded bleed pressure, which the upper end of the bracket never exceeds. -/
def BleedInv (inputs : BlendInputs) (s : BleedSearchState) : Prop :=
  0 ≤ s.low ∧ s.low ≤ s.high ∧ s.high ≤ inputs.startPressure ∧
  (s.bestBleedPressure = none → s.best.success = false) ∧
  (∀ m, s.bestBleedPressure = some m →
    s.high ≤ m ∧ 0 ≤ m ∧ m ≤ inputs.startPressure ∧
    s.best = solveBlend { inputs with startPressure := m } ∧ s.best.success = true)

lemma findBleedStep_inv (inputs : BlendInputs) (s : BleedSearchState)
    (hinv : BleedInv inputs s) : BleedInv inputs (findBleedStep inputs s) := by
  obtain ⟨h0, h1, h2, hnone, hsome⟩ := hinv
  simp only [findBleedStep]
  split_ifs with hsucc
  · refine ⟨h0, by linarith, by linarith, ?_, ?_⟩
    · intro hcontra
      exact absurd hcontra (by simp)
    · intro m hm
      obtain rfl : (s.low + s.high) / 2 = m := by simpa using hm
      exact ⟨le_refl _, by linarith, by linarith, rfl, hsucc⟩
  · refine ⟨by linarith, by linarith, h2, hnone, ?_⟩
    intro m hm
    obtain ⟨ha, hb, hc, hd, he⟩ := hsome m hm
    exact ⟨by linarith, hb, hc, hd, he⟩

lemma findBleedRun_inv (inputs : BlendInputs) (n : Nat) (s : BleedSearchState)
    (hinv : BleedInv inputs s) : BleedInv inputs (findBleedRun inputs n s) := by
  induction n generalizing s with
  | zero => exact hinv
  | succ n ih => exact ih _ (findBleedStep_inv inputs s hinv)

lemma bleedInit_inv (inputs : BlendInputs) (h0 : 0 ≤ inputs.startPressure) :
    BleedInv inputs (bleedInitState inputs) := by
  refine ⟨le_refl 0, h0, le_refl _, fun _ => rfl, ?_⟩
  intro m hm
  exact absurd hm (by simp [bleedInitState])

lemma findBleedSolution_spec (inputs : BlendInputs) (h0 : 0 ≤ inputs.startPressure) :
    ((findBleedSolution inputs).2 = none → (findBleedSolution inputs).1.success = false) ∧
    (∀ m, (findBleedSolution inputs).2 = some m →
      0 ≤ m ∧ m ≤ inputs.startPressure ∧
      (findBleedSolution inputs).1 = solveBlend { inputs with startPressure := m } ∧
      (findBleedSolution inputs).1.success = true) := by
  have hinv := findBleedRun_inv inputs 25 _ (bleedInit_inv inputs h0)
  obtain ⟨-, -, -, hnone, hsome⟩ := hinv
  unfold findBleedSolution
  refine ⟨hnone, ?_⟩
  intro m hm
  obtain ⟨-, hb, hc, hd, he⟩ := hsome m hm
  exact ⟨hb, hc, hd, he⟩

/-- Inversion of a successful standard blend: either the primary two-source
solve succeeded and the plan is its AddGas steps, or a bleed pressure within
[0, start] was found whose re-solve (same composition) succeeded, and the plan
is the bleed step followed by that re-solve plan. -/
lemma calculateStandardBlend_success_cases (settings : BlendSettings)
    (inputs : StandardBlendInput) (topGas : GasSelection)
    (hs : (calculateStandardBlend settings inputs topGas).success = true) :
    ((solveBlend (standardBlendInputs settings inputs topGas)).success = true ∧
      calculateStandardBlend settings inputs topGas =
        { success := true, steps := outcomeSteps (solveBlend (standardBlendInputs settings inputs topGas)) topGas, warnings := standardWarnings inputs, errors := [], bleedPressure := none }) ∨
    (∃ bp, 0 ≤ bp ∧
      bp ≤ fromDisplayPressure inputs.startPressure settings.pressureUnit ∧
      tolerance < fromDisplayPressure inputs.startPressure settings.pressureUnit ∧
      (solveBlend { standardBlendInputs settings inputs topGas with startPressure := bp }).success = true ∧
      calculateStandardBlend settings inputs topGas =
        { success := true, steps := { kind := StepKind.bleed, amount := fromDisplayPressure inputs.startPressure settings.pressureUnit - bp, gasName := "Bleed" } :: outcomeSteps (solveBlend { standardBlendInputs settings inputs topGas with startPressure := bp }) topGas, warnings := standardWarnings inputs, errors := [], bleedPressure := some bp }) := by
  by_cases hp : (solveBlend (standardBlendInputs settings inputs topGas)).success = true
  · left
    refine ⟨hp, ?_⟩
    simp only [calculateStandardBlend]
    rw [if_pos hp]
  · right
    simp only [calculateStandardBlend] at hs
    rw [if_neg hp] at hs
    by_cases hrb : (solveBlend (standardBlendInputs settings inputs topGas)).requiresBleed = true
    · rw [if_neg (not_not_intro hrb)] at hs
      by_cases hst : fromDisplayPressure inputs.startPressure settings.pressureUnit ≤ tolerance
      · rw [if_pos hst] at hs
        simp at hs
      · rw [if_neg hst] at hs
        rcases hb2 : (findBleedSolution (standardBlendInputs settings inputs topGas)).2
          with _ | bp
        · rw [hb2] at hs
          simp at hs
        · obtain ⟨hm0, hm1, hmeq, hmsucc⟩ :=
            (findBleedSolution_spec (standardBlendInputs settings inputs topGas)
              (by simp only [standardBlendInputs]; linarith [le_of_lt (lt_of_le_of_lt
                (le_of_lt tolerance_pos) (not_le.mp hst))])).2 bp hb2
          refine ⟨bp, hm0, by simpa [standardBlendInputs] using hm1, not_le.mp hst, ?_, ?_⟩
          · rw [← hmeq]
            exact hmsucc
          · simp only [calculateStandardBlend]
            rw [if_neg hp, if_neg (not_not_intro hrb), if_neg hst, hb2]
            dsimp only
            rw [if_neg (not_not_intro hmsucc), ← hmeq]
    · rw [if_pos hrb] at hs
      simp at hs

/-- C5: each bleed-search iteration probes the midpoint of [low, high] with the
start composition unchanged; on success it records the attempt and moves
high to the midpoint, on failure it moves low to the midpoint, so once a
solution is recorded the bracket stays at or below it (the search approaches
the recorded feasible pressure from above, and any later recorded pressure is
smaller). On a successful bleed plan the result is exactly the Bleed step of
amount originalStart minus foundStart followed by the AddGas steps the
two-source solver produces at foundStart with the same composition. -/
theorem c5_bleed_search_structure :
    (∀ (inputs : BlendInputs) (s : BleedSearchState),
      ((solveBlend { inputs with startPressure := (s.low + s.high) / 2 }).success = true →
        findBleedStep inputs s =
          { low := s.low, high := (s.low + s.high) / 2,
            best := solveBlend { inputs with startPressure := (s.low + s.high) / 2 },
            bestBleedPressure := some ((s.low + s.high) / 2) }) ∧
      ((solveBlend { inputs with startPressure := (s.low + s.high) / 2 }).success = false →
        findBleedStep inputs s =
          { low := (s.low + s.high) / 2, high := s.high, best := s.best,
            bestBleedPressure := s.bestBleedPressure })) ∧
    (∀ (inputs : BlendInputs), 0 ≤ inputs.startPressure →
      ∀ m, (findBleedSolution inputs).2 = some m →
        (findBleedRun inputs 25 (bleedInitState inputs)).high ≤ m ∧
        (solveBlend { inputs with startPressure := m }).success = true) ∧
    (∀ (settings : BlendSettings) (inputs : StandardBlendInput) (topGas : GasSelection) (bp : ℚ),
      (calculateStandardBlend settings inputs topGas).success = true →
      (calculateStandardBlend settings inputs topGas).bleedPressure = some bp →
      (solveBlend { standardBlendInputs settings inputs topGas with startPressure := bp }).success = true ∧
      (calculateStandardBlend settings inputs topGas).steps =
        { kind := StepKind.bleed, amount := fromDisplayPressure inputs.startPressure settings.pressureUnit - bp, gasName := "Bleed" } ::
          outcomeSteps (solveBlend { standardBlendInputs settings inputs topGas with startPressure := bp }) topGas ∧
      0 ≤ bp ∧ bp ≤ fromDisplayPressure inputs.startPressure settings.pressureUnit) := by
  refine ⟨?_, ?_, ?_⟩
  · intro inputs s
    constructor
    · intro hsucc
      simp only [findBleedStep]
      rw [if_pos hsucc]
    · intro hfail
      simp only [findBleedStep]
      rw [if_neg (by simp [hfail])]
  · intro inputs h0 m hm
    have hinv := findBleedRun_inv inputs 25 _ (bleedInit_inv inputs h0)
    obtain ⟨-, -, -, -, hsome⟩ := hinv
    obtain ⟨hh, -, -, hd, he⟩ := hsome m hm
    refine ⟨hh, ?_⟩
    rw [← hd]
    exact he
  · intro settings inputs topGas bp hs hbp
    rcases calculateStandardBlend_success_cases settings inputs topGas hs with
      ⟨-, heq⟩ | ⟨bp', h0, h1, -, hsolve, heq⟩
    · rw [heq] at hbp
      simp at hbp
    · rw [heq] at hbp
      simp only [Option.some.injEq] at hbp
      subst hbp
      refine ⟨hsolve, ?_, h0, h1⟩
      rw [heq]

lemma option_eq_some_getD {α : Type} (o : Option α) (d : α) (h : o.isSome = true) :
    o = some (o.getD d) := by
  cases o
  · simp at h
  · rfl

/-- C5 witness: the plan-structure part applied to a concrete bleed plan
(1000 PSI of air bled to about 500 PSI, then filled with oxygen to 2000 PSI of
80.25 percent O2). -/
theorem c5_witness :
    (calculateStandardBlend psiSettings bleedRecoveryInput oxygenGas).success = true ∧
    (calculateStandardBlend psiSettings bleedRecoveryInput oxygenGas).bleedPressure =
      some ((calculateStandardBlend psiSettings bleedRecoveryInput oxygenGas).bleedPressure.getD 0) ∧
    (solveBlend { standardBlendInputs psiSettings bleedRecoveryInput oxygenGas with startPressure := (calculateStandardBlend psiSettings bleedRecoveryInput oxygenGas).bleedPressure.getD 0 }).success = true :=
  ⟨by with_unfolding_all decide,
    option_eq_some_getD _ 0 (by with_unfolding_all decide),
    (c5_bleed_search_structure.2.2 psiSettings bleedRecoveryInput oxygenGas
      ((calculateStandardBlend psiSettings bleedRecoveryInput oxygenGas).bleedPressure.getD 0)
      (by with_unfolding_all decide)
      (option_eq_some_getD _ 0 (by with_unfolding_all decide))).1⟩

/-- With a nitrogen-free top gas and the target demanding strictly more
nitrogen than the start tank holds (mismatch above 1e-4), the two-source solve
fails at the original start pressure and at every bled-down pressure: bleeding
only widens the nitrogen deficit. -/
lemma solveBlend_pure_top_unreachable (inputs : BlendInputs) (m : ℚ)
    (hsum : inputs.startO2 + inputs.startHe ≤ 100)
    (htop : 1 - fraction inputs.topGas.o2 - fraction inputs.topGas.he ≤ tolerance)
    (hdiff : inputs.targetPressure * (1 - fraction inputs.targetO2 - fraction inputs.targetHe) -
      inputs.startPressure * (1 - fraction inputs.startO2 - fraction inputs.startHe) > 1 / 10000)
    (hm : m ≤ inputs.startPressure) :
    (solveBlend { inputs with startPressure := m }).success = false := by
  cases hsucc : (solveBlend { inputs with startPressure := m }).success
  · rfl
  · exfalso
    have hs' := hsucc
    simp only [solveBlend, apply_ite SolveOutcome.success, solveFailure] at hs'
    simp at hs'
    obtain ⟨-, -, -, -, -, -, -, -, htail⟩ := hs'
    have hcond : ¬ (tolerance < 0 ∨ tolerance <
        1 - fraction inputs.topGas.o2 - fraction inputs.topGas.he) := by
      push_neg
      exact ⟨le_of_lt tolerance_pos, htop⟩
    rw [if_neg hcond] at htail
    obtain ⟨hnd, -⟩ := htail
    have hsu : (0 : ℚ) ≤ 1 - fraction inputs.startO2 - fraction inputs.startHe := by
      have h1 : inputs.startO2 / 100 + inputs.startHe / 100 ≤ 1 := by
        rw [div_add_div_same, div_le_one (by norm_num : (0 : ℚ) < 100)]
        linarith
      unfold fraction
      linarith
    have hmul : m * (1 - fraction inputs.startO2 - fraction inputs.startHe) ≤
        inputs.startPressure * (1 - fraction inputs.startO2 - fraction inputs.startHe) :=
      mul_le_mul_of_nonneg_right hm hsu
    have hkey : inputs.targetPressure - m -
        ((inputs.targetPressure * fraction inputs.targetHe - m * fraction inputs.startHe) +
          (inputs.targetPressure * fraction inputs.targetO2 - m * fraction inputs.startO2)) =
        inputs.targetPressure * (1 - fraction inputs.targetO2 - fraction inputs.targetHe) -
          m * (1 - fraction inputs.startO2 - fraction inputs.startHe) := by
      ring
    have hout := (abs_le.mp hnd).2
    rw [hkey] at hout
    have : (10000 : ℚ)⁻¹ = 1 / 10000 := by norm_num
    rw [this] at hout
    linarith

lemma findBleedSolution_pure_top_fails (inputs : BlendInputs)
    (h0 : 0 ≤ inputs.startPressure)
    (hsum : inputs.startO2 + inputs.startHe ≤ 100)
    (htop : 1 - fraction inputs.topGas.o2 - fraction inputs.topGas.he ≤ tolerance)
    (hdiff : inputs.targetPressure * (1 - fraction inputs.targetO2 - fraction inputs.targetHe) -
      inputs.startPressure * (1 - fraction inputs.startO2 - fraction inputs.startHe) > 1 / 10000) :
    (findBleedSolution inputs).1.success = false := by
  rcases hb : (findBleedSolution inputs).2 with _ | bp
  · exact (findBleedSolution_spec inputs h0).1 hb
  · obtain ⟨hm0, hm1, hmeq, hmsucc⟩ := (findBleedSolution_spec inputs h0).2 bp hb
    rw [hmeq, solveBlend_pure_top_unreachable inputs bp hsum htop hdiff hm1] at hmsucc
    exact absurd hmsucc (by simp)

/-- C4 amended: when the top-off gas has (essentially) no nitrogen, the start
mix sums to at most 100 percent, the total pressure delta exceeds the sum of
the helium and oxygen deltas by more than 1e-4 (so the solver fails with the
unreachable-with-top-gas message), the standard blend surfaces exactly that
message as a user-facing error with no plan: the bleed-down search, though
invoked when the start pressure exceeds the tolerance, can never succeed for
this failure. (When the deltas mismatch in the other direction the
start-mix-exceeds-target failure fires first and bleed recovery can occur.) -/
theorem c4_unreachable_top_gas (settings : BlendSettings) (inputs : StandardBlendInput)
    (topGas : GasSelection)
    (hsum : inputs.startO2 + inputs.startHe ≤ 100)
    (htop : 1 - fraction topGas.o2 - fraction topGas.he ≤ tolerance)
    (hdiff : fromDisplayPressure inputs.targetPressure settings.pressureUnit *
        (1 - fraction inputs.targetO2 - fraction inputs.targetHe) -
      fromDisplayPressure inputs.startPressure settings.pressureUnit *
        (1 - fraction inputs.startO2 - fraction inputs.startHe) > 1 / 10000)
    (hmsg : solveBlend (standardBlendInputs settings inputs topGas) =
      solveFailure true "Selected top-off gas cannot reach target without bleed-down.") :
    (calculateStandardBlend settings inputs topGas).success = false ∧
    (calculateStandardBlend settings inputs topGas).steps = [] ∧
    (calculateStandardBlend settings inputs topGas).errors =
      ["Selected top-off gas cannot reach target without bleed-down."] := by
  simp only [calculateStandardBlend, hmsg]
  rw [if_neg (by simp [solveFailure])]
  rw [if_neg (by simp [solveFailure])]
  by_cases hst : fromDisplayPressure inputs.startPressure settings.pressureUnit ≤ tolerance
  · rw [if_pos hst]
    exact ⟨rfl, rfl, by simp [solveFailure]⟩
  · rw [if_neg hst]
    have hfail : (findBleedSolution (standardBlendInputs settings inputs topGas)).1.success =
        false := by
      refine findBleedSolution_pure_top_fails _ ?_ ?_ ?_ ?_
      · exact le_of_lt (lt_trans tolerance_pos (not_le.mp hst))
      · simpa [standardBlendInputs] using hsum
      · simpa [standardBlendInputs] using htop
      · simpa [standardBlendInputs] using hdiff
    rcases hb : (findBleedSolution (standardBlendInputs settings inputs topGas)).2 with _ | bp
    · exact ⟨rfl, rfl, by simp [solveFailure]⟩
    · dsimp only
      rw [if_pos (by simp [hfail])]
      exact ⟨rfl, rfl, by simp [solveFailure]⟩

/-- C4 counterexample: a pure-oxygen top gas with the component deltas
exceeding the total delta by 395 PSI (far beyond 1e-4). The claim says this
delta mismatch is reported as the unreachable-with-top-gas error with no
automatic recovery and no bleed-down search; in fact the start-mix-exceeds
failure fires, the bleed-down search runs and succeeds, and the blend returns a
successful plan containing a bleed step and no error at all. -/
theorem c4_counterexample :
    1 - fraction oxygenGas.o2 - fraction oxygenGas.he ≤ tolerance ∧
    |((2000 : ℚ) - 1000) - ((2000 * fraction 0 - 1000 * fraction 0) +
      (2000 * fraction (321 / 4) - 1000 * fraction 21))| > 1 / 10000 ∧
    (calculateStandardBlend psiSettings bleedRecoveryInput oxygenGas).success = true ∧
    hasBleedStep (calculateStandardBlend psiSettings bleedRecoveryInput oxygenGas) = true ∧
    (calculateStandardBlend psiSettings bleedRecoveryInput oxygenGas).errors = [] := by
  refine ⟨?_, ?_, ?_, ?_, ?_⟩ <;> with_unfolding_all decide

/-- C4 witness: the amended theorem applied to topping air at 1000 PSI toward
2000 PSI of 50 percent O2 with pure oxygen: nitrogen is missing by 210 PSI and
the unreachable error is surfaced with no plan. -/
theorem c4_witness :
    (unreachableTopGasInput.startO2 + unreachableTopGasInput.startHe ≤ 100) ∧
    (1 - fraction oxygenGas.o2 - fraction oxygenGas.he ≤ tolerance) ∧
    (calculateStandardBlend psiSettings unreachableTopGasInput oxygenGas).success = false ∧
    (calculateStandardBlend psiSettings unreachableTopGasInput oxygenGas).errors =
      ["Selected top-off gas cannot reach target without bleed-down."] := by
  refine ⟨by with_unfolding_all decide, by with_unfolding_all decide, ?_, ?_⟩
  · exact (c4_unreachable_top_gas psiSettings unreachableTopGasInput oxygenGas
      (by with_unfolding_all decide) (by with_unfolding_all decide)
      (by with_unfolding_all decide) (by with_unfolding_all decide)).1
  · exact (c4_unreachable_top_gas psiSettings unreachableTopGasInput oxygenGas
      (by with_unfolding_all decide) (by with_unfolding_all decide)
      (by with_unfolding_all decide) (by with_unfolding_all decide)).2.2

lemma hundred_fraction (x : ℚ) : 100 * fraction x = x := by
  unfold fraction
  field_simp

set_option maxHeartbeats 4000000 in
/-- The emitted steps of a successful outcome contain no bleed step, and their
amount sums track the solved components up to one dropped tolerance-sized
component each. -/
lemma outcomeSteps_sums (h o t : ℚ) (g : GasSelection)
    (h0 : 0 ≤ h) (o0 : 0 ≤ o) (t0 : 0 ≤ t)
    (hg1 : 0 ≤ fraction g.o2) (hg2 : fraction g.o2 ≤ 1)
    (hg3 : 0 ≤ fraction g.he) (hg4 : fraction g.he ≤ 1) :
    (outcomeSteps (mkOutcome h o t) g).filter (fun s => ¬ s.kind = StepKind.bleed) =
      outcomeSteps (mkOutcome h o t) g ∧
    |stepsAmount (outcomeSteps (mkOutcome h o t) g) - (h + o + t)| ≤ 3 * tolerance ∧
    |stepsO2Amount g (outcomeSteps (mkOutcome h o t) g) - (o + t * fraction g.o2)| ≤
      2 * tolerance ∧
    |stepsHeAmount g (outcomeSteps (mkOutcome h o t) g) - (h + t * fraction g.he)| ≤
      2 * tolerance := by
  have htol := tolerance_pos
  have hto2a : 0 ≤ t * fraction g.o2 := mul_nonneg t0 hg1
  have hto2b : t * fraction g.o2 ≤ t * 1 := mul_le_mul_of_nonneg_left hg2 t0
  have lthea : 0 ≤ t * fraction g.he := mul_nonneg t0 hg3
  have ltheb : t * fraction g.he ≤ t * 1 := mul_le_mul_of_nonneg_left hg4 t0
  simp only [outcomeSteps, mkOutcome]
  split_ifs with h1 h2 h3 <;>
    refine ⟨by simp, ?_, ?_, ?_⟩ <;>
      simp only [List.append_nil, List.nil_append, List.cons_append,
        stepsAmount, stepsO2Amount, stepsHeAmount, stepO2Fraction, stepHeFraction,
        List.map_cons, List.map_nil, List.sum_cons, List.sum_nil] <;>
      rw [abs_le] <;>
      constructor <;>
      linarith [htol, h0, o0, t0, hto2a, hto2b, lthea, ltheb]

/-- A pressure-weighted component within 4 tolerances of the target partial
pressure yields a displayed percentage within 0.1 of the target percentage,
provided the target pressure is at least one unit. -/
lemma percent_deviation_bound (N Tot T tf : ℚ)
    (hT : 1 ≤ T) (htf0 : 0 ≤ tf) (htf1 : tf ≤ 1)
    (htot : |Tot - T| ≤ 1 / 10000 + 6 * tolerance)
    (hN : |N - T * tf| ≤ 4 * tolerance) :
    |100 * N / Tot - 100 * tf| ≤ 1 / 10 := by
  have htolv : tolerance = 1 / 1000000 := rfl
  obtain ⟨htot1, htot2⟩ := abs_le.mp htot
  have hTotlb : (9998 : ℚ) / 10000 ≤ Tot := by
    rw [htolv] at htot1
    linarith
  have hTotpos : (0 : ℚ) < Tot := by linarith
  have key : 100 * N / Tot - 100 * tf = 100 * (N - tf * Tot) / Tot := by
    field_simp
    ring
  rw [key, abs_div, abs_of_pos hTotpos, div_le_iff hTotpos, abs_mul,
    abs_of_nonneg (by norm_num : (0 : ℚ) ≤ 100)]
  have h1 : |N - tf * Tot| ≤ |N - T * tf| + tf * |Tot - T| := by
    have hsplit : N - tf * Tot = (N - T * tf) + tf * (T - Tot) := by
      ring
    rw [hsplit]
    refine le_trans (abs_add _ _) ?_
    rw [abs_mul, abs_of_nonneg htf0, abs_sub_comm T Tot]
  have h2 : tf * |Tot - T| ≤ |Tot - T| := by
    calc tf * |Tot - T| ≤ 1 * |Tot - T| :=
          mul_le_mul_of_nonneg_right htf1 (abs_nonneg _)
      _ = |Tot - T| := one_mul _
  rw [htolv] at hN htot
  have h3 : |N - tf * Tot| ≤ 4 * (1 / 1000000) + (1 / 10000 + 6 * (1 / 1000000)) := by
    have := abs_le.mp hN
    linarith [h1, h2, htot]
  nlinarith [h3, abs_nonneg (N - tf * Tot)]

lemma filter_bleed_cons (a : ℚ) (nm : String) (l : List BlendStep) :
    (({ kind := StepKind.bleed, amount := a, gasName := nm } : BlendStep) :: l).filter
      (fun s => ¬ s.kind = StepKind.bleed) = l.filter (fun s => ¬ s.kind = StepKind.bleed) := by
  simp

/-- Core of the mass-balance and composition argument: the solver bounds at the
effective start pressure transfer to the emitted step list, giving the 0.5-unit
pressure balance and, for target pressures of at least one unit, the 0.1-percent
composition balance. -/
lemma blend_sums_bounds (P T sO2 sHe tO2 tHe : ℚ) (g : GasSelection) (h o t : ℚ)
    (hT : 1 ≤ T)
    (h0 : 0 ≤ h) (o0 : 0 ≤ o) (t0 : 0 ≤ t)
    (hbal : |P + h + o + t - T| ≤ 1 / 10000 + 3 * tolerance)
    (hO2 : |P * fraction sO2 + o + t * fraction g.o2 - T * fraction tO2| ≤ 2 * tolerance)
    (hHe : |P * fraction sHe + h + t * fraction g.he - T * fraction tHe| ≤ 2 * tolerance)
    (ht1 : 0 ≤ fraction tO2) (ht2 : fraction tO2 ≤ 1)
    (ht3 : 0 ≤ fraction tHe) (ht4 : fraction tHe ≤ 1)
    (hg1 : 0 ≤ fraction g.o2) (hg2 : fraction g.o2 ≤ 1)
    (hg3 : 0 ≤ fraction g.he) (hg4 : fraction g.he ≤ 1) :
    |P + stepsAmount (outcomeSteps (mkOutcome h o t) g) - T| ≤ 1 / 2 ∧
    |100 * (P * fraction sO2 + stepsO2Amount g (outcomeSteps (mkOutcome h o t) g)) /
      (P + stepsAmount (outcomeSteps (mkOutcome h o t) g)) - tO2| ≤ 1 / 10 ∧
    |100 * (P * fraction sHe + stepsHeAmount g (outcomeSteps (mkOutcome h o t) g)) /
      (P + stepsAmount (outcomeSteps (mkOutcome h o t) g)) - tHe| ≤ 1 / 10 := by
  obtain ⟨-, hS, hSO2, hSHe⟩ := outcomeSteps_sums h o t g h0 o0 t0 hg1 hg2 hg3 hg4
  have hTot : |P + stepsAmount (outcomeSteps (mkOutcome h o t) g) - T| ≤
      1 / 10000 + 6 * tolerance := by
    have hx : P + stepsAmount (outcomeSteps (mkOutcome h o t) g) - T =
        (P + h + o + t - T) +
          (stepsAmount (outcomeSteps (mkOutcome h o t) g) - (h + o + t)) := by
      ring
    rw [hx]
    refine le_trans (abs_add _ _) ?_
    linarith [hbal, hS]
  have hbO2 := percent_deviation_bound
    (P * fraction sO2 + stepsO2Amount g (outcomeSteps (mkOutcome h o t) g))
    (P + stepsAmount (outcomeSteps (mkOutcome h o t) g)) T (fraction tO2)
    hT ht1 ht2 hTot (by
      have hx : P * fraction sO2 + stepsO2Amount g (outcomeSteps (mkOutcome h o t) g) -
          T * fraction tO2 =
          (P * fraction sO2 + o + t * fraction g.o2 - T * fraction tO2) +
            (stepsO2Amount g (outcomeSteps (mkOutcome h o t) g) - (o + t * fraction g.o2)) := by
        ring
      rw [hx]
      refine le_trans (abs_add _ _) ?_
      linarith [hO2, hSO2])
  have hbHe := percent_deviation_bound
    (P * fraction sHe + stepsHeAmount g (outcomeSteps (mkOutcome h o t) g))
    (P + stepsAmount (outcomeSteps (mkOutcome h o t) g)) T (fraction tHe)
    hT ht3 ht4 hTot (by
      have hx : P * fraction sHe + stepsHeAmount g (outcomeSteps (mkOutcome h o t) g) -
          T * fraction tHe =
          (P * fraction sHe + h + t * fraction g.he - T * fraction tHe) +
            (stepsHeAmount g (outcomeSteps (mkOutcome h o t) g) - (h + t * fraction g.he)) := by
        ring
      rw [hx]
      refine le_trans (abs_add _ _) ?_
      linarith [hHe, hSHe])
  rw [hundred_fraction] at hbO2 hbHe
  exact ⟨le_trans hTot (by norm_num [tolerance]), hbO2, hbHe⟩

/-- C1 amended: for every successful standard blend result computed at a target
pressure of at least one PSI, the post-bleed start pressure plus the sum of all
AddGas step amounts equals the target pressure within 0.5 PSI, and the
pressure-weighted oxygen and helium percentages of the start gas plus all
additions each equal the target percentage within 0.1. (Without the one-PSI
floor on the target pressure the composition clause fails, see the
counterexample.) -/
theorem c1_mass_and_composition_balance (settings : BlendSettings)
    (inputs : StandardBlendInput) (topGas : GasSelection)
    (hs : (calculateStandardBlend settings inputs topGas).success = true)
    (hT : 1 ≤ fromDisplayPressure inputs.targetPressure settings.pressureUnit) :
    |effectiveStart (calculateStandardBlend settings inputs topGas)
        (fromDisplayPressure inputs.startPressure settings.pressureUnit) +
      stepsAmount (addGasSteps (calculateStandardBlend settings inputs topGas)) -
      fromDisplayPressure inputs.targetPressure settings.pressureUnit| ≤ 1 / 2 ∧
    |100 * (effectiveStart (calculateStandardBlend settings inputs topGas)
          (fromDisplayPressure inputs.startPressure settings.pressureUnit) *
          fraction inputs.startO2 +
        stepsO2Amount topGas (addGasSteps (calculateStandardBlend settings inputs topGas))) /
      (effectiveStart (calculateStandardBlend settings inputs topGas)
          (fromDisplayPressure inputs.startPressure settings.pressureUnit) +
        stepsAmount (addGasSteps (calculateStandardBlend settings inputs topGas))) -
      inputs.targetO2| ≤ 1 / 10 ∧
    |100 * (effectiveStart (calculateStandardBlend settings inputs topGas)
          (fromDisplayPressure inputs.startPressure settings.pressureUnit) *
          fraction inputs.startHe +
        stepsHeAmount topGas (addGasSteps (calculateStandardBlend settings inputs topGas))) /
      (effectiveStart (calculateStandardBlend settings inputs topGas)
          (fromDisplayPressure inputs.startPressure settings.pressureUnit) +
        stepsAmount (addGasSteps (calculateStandardBlend settings inputs topGas))) -
      inputs.targetHe| ≤ 1 / 10 := by
  obtain (⟨hp, heq⟩ | ⟨bp, hbp0, hbp1, hst, hbs, heq⟩) :=
    calculateStandardBlend_success_cases settings inputs topGas hs
  · obtain ⟨h, o, t, hsolve, h0, o0, t0, hbal, hO2, hHe, ht1, ht2, ht3, ht4,
      hg1, hg2, hg3, hg4⟩ := solveBlend_success_bounds _ hp
    have hmk : solveBlend (standardBlendInputs settings inputs topGas) = mkOutcome h o t :=
      hsolve
    obtain ⟨hfil, -, -, -⟩ := outcomeSteps_sums h o t topGas h0 o0 t0 hg1 hg2 hg3 hg4
    rw [heq, hmk]
    simp only [effectiveStart, addGasSteps, Option.getD_none]
    rw [hfil]
    simp only [standardBlendInputs] at hbal hO2 hHe ht1 ht2 ht3 ht4 hg1 hg2 hg3 hg4
    exact blend_sums_bounds _ _ _ _ _ _ topGas h o t hT h0 o0 t0 hbal hO2 hHe
      ht1 ht2 ht3 ht4 hg1 hg2 hg3 hg4
  · obtain ⟨h, o, t, hsolve, h0, o0, t0, hbal, hO2, hHe, ht1, ht2, ht3, ht4,
      hg1, hg2, hg3, hg4⟩ := solveBlend_success_bounds _ hbs
    have hmk : solveBlend { standardBlendInputs settings inputs topGas with
        startPressure := bp } = mkOutcome h o t := hsolve
    obtain ⟨hfil, -, -, -⟩ := outcomeSteps_sums h o t topGas h0 o0 t0 hg1 hg2 hg3 hg4
    rw [heq, hmk]
    simp only [effectiveStart, addGasSteps, Option.getD_some]
    rw [filter_bleed_cons, hfil]
    simp only [standardBlendInputs] at hbal hO2 hHe ht1 ht2 ht3 ht4 hg1 hg2 hg3 hg4
    exact blend_sums_bounds _ _ _ _ _ _ topGas h o t hT h0 o0 t0 hbal hO2 hHe
      ht1 ht2 ht3 ht4 hg1 hg2 hg3 hg4

/-- C1 counterexample: at a target of 1e-4 PSI (EAN51 from a tiny 2-percent-He
start fill), the blend succeeds with a single tiny oxygen step, yet the
pressure-weighted helium percentage of start plus additions is 100/101, which
misses the 0-percent helium target by far more than 0.1 percent: the claimed
composition clause fails without a lower bound on the target pressure. -/
theorem c1_counterexample :
    (calculateStandardBlend psiSettings tinyPressureInput oxygenGas).success = true ∧
    ¬ |100 * (effectiveStart (calculateStandardBlend psiSettings tinyPressureInput oxygenGas)
          (fromDisplayPressure tinyPressureInput.startPressure psiSettings.pressureUnit) *
          fraction tinyPressureInput.startHe +
        stepsHeAmount oxygenGas
          (addGasSteps (calculateStandardBlend psiSettings tinyPressureInput oxygenGas))) /
      (effectiveStart (calculateStandardBlend psiSettings tinyPressureInput oxygenGas)
          (fromDisplayPressure tinyPressureInput.startPressure psiSettings.pressureUnit) +
        stepsAmount (addGasSteps (calculateStandardBlend psiSettings tinyPressureInput oxygenGas))) -
      tinyPressureInput.targetHe| ≤ 1 / 10 := by
  refine ⟨by with_unfolding_all decide, by with_unfolding_all decide⟩

/-- C1 witness: the amended theorem applied to a standard EAN32 fill from 500
PSI of air to 3000 PSI, whose plan balances the target pressure within 0.5 PSI. -/
theorem c1_witness :
    (calculateStandardBlend psiSettings ean32Input airGas).success = true ∧
    1 ≤ fromDisplayPressure ean32Input.targetPressure psiSettings.pressureUnit ∧
    |effectiveStart (calculateStandardBlend psiSettings ean32Input airGas)
        (fromDisplayPressure ean32Input.startPressure psiSettings.pressureUnit) +
      stepsAmount (addGasSteps (calculateStandardBlend psiSettings ean32Input airGas)) -
      fromDisplayPressure ean32Input.targetPressure psiSettings.pressureUnit| ≤ 1 / 2 := by
  refine ⟨by with_unfolding_all decide, by with_unfolding_all decide, ?_⟩
  exact (c1_mass_and_composition_balance psiSettings ean32Input airGas
    (by with_unfolding_all decide) (by with_unfolding_all decide)).1

lemma mem_ite_singleton {α : Type} {c : Prop} [Decidable c] {st x : α}
    (h : st ∈ if c then [x] else ([] : List α)) : c ∧ st = x := by
  split_ifs at h with hc
  · exact ⟨hc, by simpa using h⟩
  · simp at h

lemma outcomeSteps_mk_nonneg (h o t : ℚ) (g : GasSelection) :
    ∀ st ∈ outcomeSteps (mkOutcome h o t) g, 0 ≤ st.amount := by
  intro st hst
  have htol := tolerance_pos
  simp only [outcomeSteps, mkOutcome, List.mem_append] at hst
  rcases hst with (hm | hm) | hm <;>
    obtain ⟨hc, rfl⟩ := mem_ite_singleton hm <;>
    dsimp <;>
    linarith

/-- The recommended fill order only keeps steps strictly above the tolerance,
so every entry amount is nonnegative. -/
lemma fillOrder_nonneg (steps : List GasStep) :
    ∀ e ∈ getRecommendedFillOrder steps, 0 ≤ e.amount := by
  intro e he
  simp only [getRecommendedFillOrder, List.mem_map] at he
  obtain ⟨s, hs, rfl⟩ := he
  have hs2 : s ∈ steps.filter fun s => s.amount > tolerance :=
    (List.Perm.mem_iff (List.perm_insertionSort _ _)).mp hs
  have hamt := List.of_mem_filter hs2
  simp at hamt
  have htol := tolerance_pos
  dsimp
  linarith

lemma trySingleGas_amount (P a b : ℚ) (g : GasSelection) (s : SingleGasSolution)
    (h : trySingleGasSolution P a b g = some s) : s.amount = P := by
  simp only [trySingleGasSolution] at h
  split_ifs at h with hc
  simp only [Option.some.injEq] at h
  rw [← h]

lemma dedupAlternativesGo_subset (seen : List String) (l : List BlendAlternative) :
    ∀ a ∈ dedupAlternativesGo seen l, a ∈ l := by
  induction l generalizing seen with
  | nil =>
    intro a ha
    simp [dedupAlternativesGo] at ha
  | cons x xs ih =>
    intro a ha
    simp only [dedupAlternativesGo] at ha
    split_ifs at ha with hk
    · exact List.mem_cons_of_mem x (ih seen a ha)
    · rcases List.mem_cons.mp ha with rfl | ha2
      · exact List.mem_cons_self _ _
      · exact List.mem_cons_of_mem x (ih _ a ha2)

/-- Every alternative produced by the generator has nonnegative step amounts
and nonnegative fill-order amounts: two- and three-gas steps are kept only
above the tolerance, and a single-gas step adds the full (positive) pressure
delta. -/
lemma generateBlendAlternatives_nonneg (T tO2 tHe P sO2 sHe : ℚ)
    (gases : List GasSelection) (cs : CostSettings) (n : Nat) :
    ∀ alt ∈ generateBlendAlternatives T tO2 tHe P sO2 sHe gases cs n,
      (∀ st ∈ alt.steps, 0 ≤ st.amount) ∧ (∀ e ∈ alt.fillOrder, 0 ≤ e.amount) := by
  intro alt halt
  have htol := tolerance_pos
  simp only [generateBlendAlternatives] at halt
  split_ifs at halt with h1 h2 h3
  · simp at halt
  · simp at halt
  · simp at halt
  · have hsub : alt ∈ _ := List.take_subset _ _ halt
    have hmem0 := (List.perm_insertionSort
      (fun a b : BlendAlternative => a.estimatedCost ≤ b.estimatedCost) _).mem_iff.mp hsub
    simp only [dedupAlternatives] at hmem0
    have hmem := dedupAlternativesGo_subset [] _ alt hmem0
    simp only [List.mem_append] at hmem
    rcases hmem with (hsg | hpr) | htr
    · rw [List.mem_filterMap] at hsg
      obtain ⟨g, hg, hf⟩ := hsg
      rw [Option.map_eq_some'] at hf
      obtain ⟨sol, hsol, rfl⟩ := hf
      have hamt := trySingleGas_amount _ _ _ _ _ hsol
      have hP : tolerance < T - P := not_le.mp h1
      constructor
      · intro st hst
        simp only [singleGasAlternative, List.mem_singleton] at hst
        subst hst
        dsimp
        rw [hamt]
        linarith
      · intro e he
        simp only [singleGasAlternative] at he
        exact fillOrder_nonneg _ e he
    · rw [List.mem_filterMap] at hpr
      obtain ⟨p, hp, hf⟩ := hpr
      rw [Option.bind_eq_some] at hf
      obtain ⟨sol, hsol, hif⟩ := hf
      split_ifs at hif with hcond
      simp only [Option.some.injEq] at hif
      subst hif
      constructor
      · intro st hst
        simp only [twoGasAlternative, List.mem_append] at hst
        rcases hst with hm | hm <;>
          obtain ⟨hc, rfl⟩ := mem_ite_singleton hm <;>
          dsimp <;>
          linarith
      · intro e he
        simp only [twoGasAlternative] at he
        exact fillOrder_nonneg _ e he
    · rw [List.mem_filterMap] at htr
      obtain ⟨t, ht, hf⟩ := htr
      rw [Option.bind_eq_some] at hf
      obtain ⟨sol, hsol, hif⟩ := hf
      split_ifs at hif with hcond
      simp only [Option.some.injEq] at hif
      subst hif
      constructor
      · intro st hst
        simp only [threeGasAlternative, List.mem_append] at hst
        rcases hst with (hm | hm) | hm <;>
          obtain ⟨hc, rfl⟩ := mem_ite_singleton hm <;>
          dsimp <;>
          linarith
      · intro e he
        simp only [threeGasAlternative] at he
        exact fillOrder_nonneg _ e he

/-- The orchestrator bleed-down search only ever records alternative lists that
came out of the generator (at some probed start pressure), or keeps the empty
initial list. -/
lemma ngasSearchRun_alts (T tO2 tHe sO2 sHe : ℚ) (gases : List GasSelection)
    (cs : CostSettings) (n : Nat) (s : NGasSearchState)
    (hini : s.bestAlternatives = [] ∨ ∃ m, s.bestAlternatives =
      generateBlendAlternatives T tO2 tHe m sO2 sHe gases cs 5) :
    (ngasSearchRun T tO2 tHe sO2 sHe gases cs n s).bestAlternatives = [] ∨
    ∃ m, (ngasSearchRun T tO2 tHe sO2 sHe gases cs n s).bestAlternatives =
      generateBlendAlternatives T tO2 tHe m sO2 sHe gases cs 5 := by
  induction n generalizing s with
  | zero => exact hini
  | succ n ih =>
    refine ih _ ?_
    simp only [ngasSearchStep]
    split_ifs with hlen
    · exact Or.inr ⟨(s.low + s.high) / 2, rfl⟩
    · exact hini

lemma calculateStandardBlend_not_success_steps (settings : BlendSettings)
    (inputs : StandardBlendInput) (topGas : GasSelection)
    (h : ¬ (calculateStandardBlend settings inputs topGas).success = true) :
    (calculateStandardBlend settings inputs topGas).steps = [] := by
  simp only [calculateStandardBlend] at h ⊢
  by_cases hp : (solveBlend (standardBlendInputs settings inputs topGas)).success = true
  · rw [if_pos hp] at h
    simp at h
  · rw [if_neg hp] at h ⊢
    by_cases hrb : ¬ (solveBlend (standardBlendInputs settings inputs topGas)).requiresBleed = true
    · rw [if_pos hrb]
    · rw [if_neg hrb] at h ⊢
      by_cases hst : fromDisplayPressure inputs.startPressure settings.pressureUnit ≤ tolerance
      · rw [if_pos hst]
      · rw [if_neg hst] at h ⊢
        revert h
        rcases hb : (findBleedSolution (standardBlendInputs settings inputs topGas)).2 with _ | bp
        · intro h
          rfl
        · intro h
          dsimp only at h ⊢
          by_cases hsb : ¬ (findBleedSolution (standardBlendInputs settings inputs topGas)).1.success = true
          · rw [if_pos hsb]
          · rw [if_neg hsb] at h
            simp at h

/-- C3 amended: every step of a standard blend result (including the prepended
bleed step) has a nonnegative amount, and every alternative returned by the
N-gas solver has nonnegative step amounts and nonnegative fill-order amounts
except possibly the synthetic Bleed Tank fill-order entry, whose amount is the
negated bleed and is negative whenever a bleed-down occurred. -/
theorem c3_step_nonnegativity :
    (∀ (settings : BlendSettings) (inputs : StandardBlendInput) (topGas : GasSelection),
      ∀ st ∈ (calculateStandardBlend settings inputs topGas).steps, 0 ≤ st.amount) ∧
    (∀ (settings : BlendSettings) (tP tO2 tHe sP sO2 sHe : ℚ)
        (gases : List GasSelection) (cs : CostSettings) (idx : ℤ),
      ∀ alt ∈ (solveNGasBlend settings tP tO2 tHe sP sO2 sHe gases cs idx).alternatives,
        (∀ st ∈ alt.steps, 0 ≤ st.amount) ∧
        (∀ e ∈ alt.fillOrder, ¬ e.gas = "Bleed Tank" → 0 ≤ e.amount)) := by
  constructor
  · intro settings inputs topGas st hst
    by_cases hs : (calculateStandardBlend settings inputs topGas).success = true
    · obtain (⟨hp, heq⟩ | ⟨bp, hbp0, hbp1, hstt, hbs, heq⟩) :=
        calculateStandardBlend_success_cases settings inputs topGas hs
      · obtain ⟨h, o, t, hsolve, -⟩ := solveBlend_success_bounds _ hp
        have hmk : solveBlend (standardBlendInputs settings inputs topGas) = mkOutcome h o t :=
          hsolve
        rw [heq, hmk] at hst
        dsimp only at hst
        exact outcomeSteps_mk_nonneg h o t topGas st hst
      · obtain ⟨h, o, t, hsolve, -⟩ := solveBlend_success_bounds _ hbs
        have hmk : solveBlend { standardBlendInputs settings inputs topGas with
            startPressure := bp } = mkOutcome h o t := hsolve
        rw [heq, hmk] at hst
        dsimp only at hst
        rcases List.mem_cons.mp hst with rfl | htail
        · dsimp
          linarith [hbp1]
        · exact outcomeSteps_mk_nonneg h o t topGas st htail
    · rw [calculateStandardBlend_not_success_steps settings inputs topGas hs] at hst
      simp at hst
  · intro settings tP tO2 tHe sP sO2 sHe gases cs idx alt halt
    simp only [solveNGasBlend] at halt
    split_ifs at halt with h1 h2 h3 h4 h5 h6 h7
    all_goals try simp only [Option.map_some', Option.getD_some, Option.map_none',
      Option.getD_none] at halt
    all_goals try (exfalso; revert halt; simp; done)
    · -- bleed-down search succeeded and the selection came from it
      have hrun := ngasSearchRun_alts (fromDisplayPressure tP settings.pressureUnit) tO2 tHe
        sO2 sHe gases cs 20
        { low := 0, high := fromDisplayPressure sP settings.pressureUnit,
          bestStartPressure := 0, bestAlternatives := [] } (Or.inl rfl)
      rcases hrun with hempty | ⟨m, hm⟩
      · rw [hempty] at h5
        simp at h5
      · rw [hm] at halt
        rw [List.mem_map] at halt
        obtain ⟨a, ha, rfl⟩ := halt
        obtain ⟨hsteps, hfill⟩ := generateBlendAlternatives_nonneg _ _ _ _ _ _ _ _ _ a ha
        constructor
        · intro st hst
          simp only [addBleedToAlternative] at hst
          exact hsteps st hst
        · intro e he hgas
          simp only [addBleedToAlternative] at he
          rcases List.mem_cons.mp he with rfl | he2
          · simp at hgas
          · exact hfill e he2
    · exact absurd h4.1 h7
    · obtain ⟨hsteps, hfill⟩ := generateBlendAlternatives_nonneg _ _ _ _ _ _ _ _ _ alt halt
      exact ⟨hsteps, fun e he _ => hfill e he⟩

/-- C3 counterexample: filling a tank of pure oxygen at 1000 PSI to 2000 PSI of
air with only Air available forces the N-gas bleed-down fallback; the returned
(successful) alternative carries a Bleed Tank fill-order entry whose amount is
the negated bleed, about -987.4 PSI: a returned fill-order step with a negative
amount, contradicting the unqualified non-negativity claim. -/
theorem c3_counterexample :
    (solveNGasBlend psiSettings 2000 21 0 1000 100 0 [airGas] zeroCostSettings 0).success =
      true ∧
    ((solveNGasBlend psiSettings 2000 21 0 1000 100 0 [airGas]
        zeroCostSettings 0).alternatives.any
      fun alt => alt.fillOrder.any fun e => e.amount < 0) = true := by
  refine ⟨by with_unfolding_all decide, by with_unfolding_all decide⟩

/-- C3 witness: the single Air top-off step of a plain air fill from an empty
tank is in the plan and its amount is nonnegative. -/
theorem c3_witness :
    ({ kind := StepKind.topoff, amount := 100, gasName := "Air" } : BlendStep) ∈
      (calculateStandardBlend psiSettings c3WitnessInput airGas).steps ∧
    0 ≤ ({ kind := StepKind.topoff, amount := 100, gasName := "Air" } : BlendStep).amount := by
  refine ⟨by with_unfolding_all decide, ?_⟩
  exact c3_step_nonnegativity.1 psiSettings c3WitnessInput airGas _
    (by with_unfolding_all decide)
